import Mathlib

/-!
Verification of the Mammotion web-service orchestration layer
(`src/mammotion_web/services/mammotion_service.py` and
`src/mammotion_web/api/pymammotion_client.py`).

The Python code is shallowly embedded: Python dynamic values are the
inductive `PyVal` (Python `bool` is a subtype of `int`, so numeric
`isinstance` checks accept booleans, mirrored here); Python floats are
modelled as exact rationals (`Rat`) — the coordinate-validation logic is
pure comparison logic and no claim depends on rounding; upstream cloud
calls are oracles supplied through an environment record; exceptions are
`Except`; the in-memory session store is an association list threaded
through each operation.  Numeric-string parsing by Python `float()` is
modelled as a conversion failure (no claim exercises it).
-/

namespace MammotionWeb

/-- Error taxonomy of `mammotion_service.py` (`ServiceError` and its
subclasses `AuthError`, `NotFoundError`, `CommandError`). -/
inductive SErr where
  | authError (msg : String)
  | notFoundError (msg : String)
  | commandError (msg : String)
  | serviceError (msg : String)
deriving DecidableEq, Repr

/-- Python builtin exceptions used by `pymammotion_client.py`. -/
inductive PyErr where
  | runtimeError (msg : String)
  | valueError (msg : String)
deriving DecidableEq, Repr

/-- A dynamic Python value as it appears in the telemetry dictionaries.
`pbool` is kept separate from `pint` because Python `isinstance(x, int)`
is true for booleans while `isinstance(x, bool)` is false for plain ints;
both behaviours are modelled below. -/
inductive PyVal where
  | pnone
  | pint (n : Int)
  | pbool (b : Bool)
  | pnum (q : Rat)
  | pstr (s : String)
  | pdict (fields : List (String × PyVal))
  | plist (items : List PyVal)

namespace PyVal

/-- Python truthiness (`bool(x)`): `None`, `0`, `False`, `""`, `{}`, `[]`
are falsy. -/
def truthy : PyVal → Bool
  | pnone => false
  | pint n => n ≠ 0
  | pbool b => b
  | pnum q => q ≠ 0
  | pstr s => s ≠ ""
  | pdict fields => ¬fields.isEmpty
  | plist items => ¬items.isEmpty

/-- `isinstance(v, (int, float))` — booleans count as ints in Python. -/
def isNum : PyVal → Bool
  | pint _ => true
  | pbool _ => true
  | pnum _ => true
  | _ => false

/-- `isinstance(v, int)` — booleans count as ints in Python. -/
def isInt : PyVal → Bool
  | pint _ => true
  | pbool _ => true
  | _ => false

/-- `isinstance(v, str)`. -/
def isStr : PyVal → Bool
  | pstr _ => true
  | _ => false

/-- `isinstance(v, bool)` — strict, ints are not bools. -/
def isBool : PyVal → Bool
  | pbool _ => true
  | _ => false

/-- Python `x is None`. -/
def isNone : PyVal → Bool
  | pnone => true
  | _ => false

/-- Numeric value of an `int`/`float`/`bool`; `0` for everything else
(only applied after an `isNum`-style guard, mirroring the Python flow). -/
def toRat : PyVal → Rat
  | pint n => (n : Rat)
  | pbool b => if b then 1 else 0
  | pnum q => q
  | _ => 0

/-- Python `str(v)` for the scalar values that reach it in this code.
Container/float rendering is schematic (no claim compares such strings). -/
def pyStr : PyVal → String
  | pnone => "None"
  | pint n => toString n
  | pbool b => if b then "True" else "False"
  | pnum q => toString q
  | pstr s => s
  | pdict _ => "<dict>"
  | plist _ => "<list>"

end PyVal

/-- Python `int(x)` truncation toward zero on a rational. -/
def ratTrunc (q : Rat) : Int :=
  if 0 ≤ q then ⌊q⌋ else ⌈q⌉

/-- Python `int(v)` for a numeric `PyVal` (guarded by `isNum` upstream). -/
def pyInt (v : PyVal) : Int :=
  ratTrunc v.toRat

/-- Lower-case a string (Python `str.lower()`; the strings this code
lowers are ASCII). -/
def lowerStr (s : String) : String :=
  ⟨s.data.map Char.toLower⟩

/-- `as` begins `bs`. -/
def leadsWith : List Char → List Char → Bool
  | [], _ => true
  | _ :: _, [] => false
  | a :: as, b :: bs => a == b && leadsWith as bs

/-- `needle` occurs contiguously in the character list. -/
def substrInAux (needle : List Char) : List Char → Bool
  | [] => needle.isEmpty
  | c :: rest => leadsWith needle (c :: rest) || substrInAux needle rest

/-- Python `needle in hay` substring test. -/
def substrIn (needle hay : String) : Bool :=
  substrInAux needle.data hay.data

/-- Python `str.strip()` (whitespace at both ends). -/
def trimStr (s : String) : String :=
  ⟨((s.data.dropWhile Char.isWhitespace).reverse.dropWhile Char.isWhitespace).reverse⟩

/-- Python `d.get(k)` on a dict modelled as an association list
(keys unique, insertion order preserved). Returns `none` when absent. -/
def dictGet (fields : List (String × PyVal)) (k : String) : Option PyVal :=
  (fields.find? (fun p => p.1 = k)).map (·.2)

/-- Python `a or b` over optional lookup results, using truthiness
(`d.get(x) or d.get(y)`): a falsy or missing left operand falls through. -/
def pyOr (a b : Option PyVal) : Option PyVal :=
  match a with
  | some v => if v.truthy then some v else b
  | none => b

/-- Python `a or b` over optional strings (`getattr(...) or getattr(...)`):
`None` and `""` fall through. -/
def strOr (a b : Option String) : Option String :=
  match a with
  | some s => if s = "" then b else some s
  | none => b

mutual

/-- `_deep_find_first(d, keys_substr)`: DFS for the first value whose key
contains one of the substrings (case-insensitive on the key). -/
def deepFindFirst (keys : List String) : PyVal → Option PyVal
  | PyVal.pdict fields => deepFindFields keys fields
  | PyVal.plist items => deepFindItems keys items
  | _ => none

def deepFindFields (keys : List String) : List (String × PyVal) → Option PyVal
  | [] => none
  | (k, v) :: rest =>
    if keys.any (fun s => substrIn s (lowerStr k)) then some v
    else
      match deepFindFirst keys v with
      | some r => some r
      | none => deepFindFields keys rest

def deepFindItems (keys : List String) : List PyVal → Option PyVal
  | [] => none
  | v :: rest =>
    match deepFindFirst keys v with
    | some r => some r
    | none => deepFindItems keys rest

end

mutual

/-- `_deep_find_work_mode(d)`: DFS for the first integer value under a key
containing `work_mode`/`workmode`/both `work` and `mode`.  Python
`isinstance(v, int)` accepts booleans, so `True`/`False` qualify. -/
def deepFindWorkMode : PyVal → Option Int
  | PyVal.pdict fields => deepFindWorkModeFields fields
  | PyVal.plist items => deepFindWorkModeItems items
  | _ => none

def deepFindWorkModeFields : List (String × PyVal) → Option Int
  | [] => none
  | (k, v) :: rest =>
    let kl := lowerStr k
    if (substrIn "work_mode" kl || substrIn "workmode" kl ||
        (substrIn "work" kl && substrIn "mode" kl)) && v.isInt then
      some (pyInt v)
    else
      match deepFindWorkMode v with
      | some r => some r
      | none => deepFindWorkModeFields rest

def deepFindWorkModeItems : List PyVal → Option Int
  | [] => none
  | v :: rest =>
    match deepFindWorkMode v with
    | some r => some r
    | none => deepFindWorkModeItems rest

end

/-- The work-mode table of `_map_work_mode`.  The `WorkMode` constants are
imported from the external `pymammotion` library with in-source integer
defaults (`getattr(WorkMode, "MODE_READY", 11)` etc.); the defaults are
used here.  Note the source maps both `MODE_READY` (11) and
`MODE_NOT_ACTIVE` (0) to `"standby"`. -/
def workModeTable : List (Int × String) :=
  [(11, "standby"), (0, "standby"), (13, "mowing"), (14, "returning"),
   (15, "charging"), (19, "paused"), (1, "online"), (2, "offline"),
   (17, "locked"), (16, "updating"), (23, "update_failed")]

/-- `_map_work_mode(value)`: decode a raw work-mode integer via the fixed
table; unknown codes yield `"mode_<n>"`. -/
def mapWorkMode (value : Int) : String :=
  match workModeTable.lookup value with
  | some s => s
  | none => "mode_" ++ toString value

example : mapWorkMode 13 = "mowing" := by decide
example : mapWorkMode 0 = "standby" := by decide
example : mapWorkMode 42 = "mode_42" := by decide

/-! ## Data model -/

/-- A typed cloud device record (`ListingDevByAccountResponse.Data.data`
entry); each field is the corresponding attribute, `none` when the
attribute is absent or `None`. -/
structure TypedDevice where
  iotId : Option String := none
  nickName : Option String := none
  deviceName : Option String := none
  productModel : Option String := none
  productName : Option String := none
  categoryName : Option String := none
  identityId : Option String := none
deriving DecidableEq, Repr

/-- `LastTelemetry` dataclass: last known good telemetry per device. -/
structure LastTelemetry where
  battery : Option Int := none
  position : Option (Rat × Rat) := none
  work_mode : Option Int := none
  updated_at : Nat := 0
deriving DecidableEq, Repr

/-- A location point (`latitude`/`longitude` attributes; `pnone` models a
missing attribute or `None`). -/
structure PyPoint where
  latitude : PyVal := .pnone
  longitude : PyVal := .pnone

/-- `state.location` with its `device`, `dock` and `RTK` points. -/
structure LocationObj where
  device : Option PyPoint := none
  dock : Option PyPoint := none
  RTK : Option PyPoint := none

/-- The unified per-device state object exposed by the manager.
`status_properties`/`mqtt_properties` hold the `to_dict()` views when the
attribute is present and has `to_dict`; `stateDict` is `state.to_dict()`
when available. -/
structure StateObj where
  location : Option LocationObj := none
  status_properties : Option (List (String × PyVal)) := none
  mqtt_properties : Option (List (String × PyVal)) := none
  stateDict : Option PyVal := none
  online : PyVal := .pnone

/-- The mower model object reachable via `cloud_dev.mower`; the four
attribute bags back the fixed battery / work-mode attribute paths. -/
structure MowerObj where
  location : Option LocationObj := none
  mower_state : Option (List (String × PyVal)) := none
  mowing_state : Option (List (String × PyVal)) := none
  status_properties : Option (List (String × PyVal)) := none
  mqtt_properties : Option (List (String × PyVal)) := none

/-- The cloud device handle (`mgr.cloud()`). `methods` lists the names
that `hasattr` probes find for command dispatch; `queueAvailable` is
`hasattr(cloud_dev, "queue_command")`. -/
structure CloudDev where
  mower : Option MowerObj := none
  methods : List String := []
  queueAvailable : Bool := false

/-- A per-device manager handle (`MammotionMixedDeviceManager` or the
orchestrator-created equivalent).  `mid` is its identity, used to state
that cached lookups return the same handle.  `state` is `getattr(mgr,
"state")` (`none` when the access raises); `cloudDev` is `mgr.cloud()`
(`none` when that returns `None` or raises). -/
structure Mgr where
  mid : Nat
  state : Option StateObj := none
  cloudDev : Option CloudDev := none

/-- `AuthSession`: one authenticated user's cloud handles and caches.
`clientPresent`/`mammotionPresent` model `session.client`/
`session.mammotion` being non-`None`. -/
structure Session where
  email : String := ""
  clientPresent : Bool := true
  mammotionPresent : Bool := false
  devices_by_iot : List (String × TypedDevice) := []
  managers_by_iot : List (String × Mgr) := []
  last_known_by_iot : List (String × LastTelemetry) := []

/-- Service state threaded through calls: the session plus a counter of
manager constructions performed (each orchestrator- or direct-constructor
creation increments it). -/
structure SState where
  session : Session
  constructions : Nat := 0

/-- A normalized device summary as produced by `list_devices` (the dict
returned for the UI).  `position` keeps the raw values the listing
carried (the listing path performs no coordinate validation). -/
structure DeviceSummary where
  id : String
  name : String
  model : String
  battery : Option Int
  status : String
  position : Option (PyVal × PyVal)
  is_base : Bool

/-- The result of `cloud.list_binding_by_account()` (or the orchestrator
fallback): `toDict` is `resp.to_dict()` when the method exists and
succeeds; `typedData` is `resp.data.data` when those attributes exist
(`list(... or [])` applied).  A bare Python list response has neither. -/
structure ListingResp where
  toDict : Option PyVal := none
  typedData : Option (List TypedDevice) := none

/-- Oracles for the upstream cloud calls made during one service call. -/
structure Env where
  /-- `cloud.list_binding_by_account()`: the response, or the raised
  exception's message. -/
  listingResult : Except String ListingResp := .error ""
  /-- listing recovered from the orchestrator's cloud client (including
  the `connect_iot` last resort); `none` when unavailable. -/
  mammotionListing : Option ListingResp := none
  /-- `cloud.devices_by_account_response.to_dict()` when present. -/
  cloudRespToDict : Option PyVal := none
  /-- `cloud.devices_by_account_response.data.data` when present. -/
  cloudRespTyped : Option (List TypedDevice) := none
  /-- `cloud.list_binding_by_dev(id)` distilled to its first device
  record with a truthy `iotId`; `none` on failure or empty data. -/
  listBindingByDev : String → Option TypedDevice := fun _ => none
  /-- the orchestrator's MQTT client for this email is present. -/
  mqttClientPresent : Bool := false
  /-- `session.mammotion.get_or_create_device_by_name(...)` result;
  `none` when the call raises. -/
  orchestratorMgr : Option Mgr := none
  /-- direct `MammotionMixedDeviceManager(...)` construction result;
  `none` when construction raises `TypeError`. -/
  constructedMgr : Option Mgr := none
  /-- `time.time()` for this call. -/
  nowTs : Nat := 0

/-! ## `list_devices` -/

/-- Association-list read (`dict` lookup). -/
def alGet {α : Type} (l : List (String × α)) (k : String) : Option α :=
  (l.find? (fun p => p.1 = k)).map (·.2)

/-- Association-list write (`dict` assignment: overwrite the first
binding in place, else append — Python dict update order semantics). -/
def alUpdate {α : Type} : List (String × α) → String → α → List (String × α)
  | [], k, v => [(k, v)]
  | p :: rest, k, v =>
    if p.1 = k then (k, v) :: rest else p :: alUpdate rest k v

/-- Python `d.get(k)` returning `None` (here `pnone`) when absent. -/
def dictGetV (fields : List (String × PyVal)) (k : String) : PyVal :=
  ((fields.find? (fun p => p.1 = k)).map (·.2)).getD .pnone

/-- Python `a or b` on values: first operand if truthy, else second. -/
def pyOrV (a b : PyVal) : PyVal :=
  if a.truthy then a else b

/-- `str(x)` for an optional string attribute (`str(None) = "None"`). -/
def strOfOpt (o : Option String) : String :=
  match o with
  | some s => s
  | none => "None"

/-- Keywords of the base-station heuristic. -/
def baseKeywords : List String :=
  ["rtk", "base", "station", "rasenradar"]

/-- `any(k in nm or k in mdl or k in catl for k in [...])`. -/
def isBaseFlag (nm mdl catl : String) : Bool :=
  baseKeywords.any (fun k => substrIn k nm || substrIn k mdl || substrIn k catl)

/-- Normalization of one typed device (lines 259–278 of the service). -/
def typedSummary (dev : TypedDevice) : DeviceSummary :=
  let iot_id := dev.iotId
  let name := strOr (strOr dev.nickName dev.deviceName) iot_id
  let model := (strOr (strOr dev.productModel dev.productName) (some "Unknown")).getD "Unknown"
  let cat := dev.categoryName.getD ""
  let nm := lowerStr (strOfOpt name)
  let mdl := lowerStr model
  let catl := lowerStr cat
  { id := strOfOpt iot_id
    name := match name with
            | some s => s
            | none => strOfOpt iot_id
    model := model
    battery := none
    status := "unknown"
    position := none
    is_base := isBaseFlag nm mdl catl }

/-- Cache of typed devices by `iotId` (entries with falsy `iotId` are
skipped), replacing the previous index wholesale. -/
def typedIndex (typed : List TypedDevice) : List (String × TypedDevice) :=
  typed.foldl
    (fun acc d =>
      match d.iotId with
      | some s => if s ≠ "" then alUpdate acc s d else acc
      | none => acc)
    []

/-- The dict-heuristics key scan (lines 287–300): the first key among
`data`, `devices`, `list`, `result` whose value is a list, or a dict
holding a `data` list; `[]` when none matches. -/
def findDevicesRaw (fields : List (String × PyVal)) : List String → List PyVal
  | [] => []
  | k :: rest =>
    match alGet fields k with
    | some (.plist items) => items
    | some (.pdict sub) =>
      match alGet sub "data" with
      | some (.plist items) => items
      | _ => findDevicesRaw fields rest
    | _ => findDevicesRaw fields rest

/-- `.get("lat")` on a value expected to be a dict (`pnone` otherwise;
a non-dict here would raise in Python, which no claim exercises). -/
def subGet (v : PyVal) (k : String) : PyVal :=
  match v with
  | .pdict fields => dictGetV fields k
  | _ => .pnone

/-- Normalization of one raw dict item (lines 302–330); non-dict items
are skipped.  When `iot_id` is `None` the Python code stores the raw
`name` value in `"id"`; its only consumer applies `str(...)`, so the
`str` image is stored here. -/
def dictItemSummary : PyVal → Option DeviceSummary
  | .pdict item =>
    let iot_id := pyOrV (dictGetV item "iotId") (pyOrV (dictGetV item "iot_id")
      (pyOrV (dictGetV item "id") (pyOrV (dictGetV item "deviceId")
        (dictGetV item "device_id"))))
    let name := pyOrV (dictGetV item "nickName") (pyOrV (dictGetV item "deviceName")
      (pyOrV (dictGetV item "name") iot_id))
    let model := pyOrV (dictGetV item "productModel") (pyOrV (dictGetV item "model")
      (pyOrV (dictGetV item "productName") (.pstr "Unknown")))
    let cat := pyOrV (dictGetV item "categoryName") (.pstr "")
    let nm := lowerStr name.pyStr
    let mdl := lowerStr model.pyStr
    let catl := lowerStr cat.pyStr
    let batteryRaw :=
      if ¬(dictGetV item "battery").isNone then dictGetV item "battery"
      else dictGetV item "batteryLevel"
    let status := pyOrV (dictGetV item "status") (pyOrV (dictGetV item "work_mode")
      (.pstr "unknown"))
    let posDict := pyOrV (dictGetV item "position") (.pdict [])
    let lat := pyOrV (dictGetV item "latitude") (subGet posDict "lat")
    let lon := pyOrV (dictGetV item "longitude") (subGet posDict "lon")
    some
      { id := if ¬iot_id.isNone then iot_id.pyStr else name.pyStr
        name := name.pyStr
        model := model.pyStr
        battery := if batteryRaw.isNum then some (pyInt batteryRaw) else none
        status := status.pyStr
        position := if ¬lat.isNone && ¬lon.isNone then some (lat, lon) else none
        is_base := isBaseFlag nm mdl catl }
  | _ => none

/-- The typed device list of a listing refresh: `resp.data.data`, the
cloud attribute fallback, or `[]`. -/
def typedOf (env : Env) (resp : ListingResp) : List TypedDevice :=
  match resp.typedData with
  | some l => l
  | none =>
    match env.cloudRespTyped with
    | some l => l
    | none => []

/-- The summaries a listing refresh produces (or the shape error): the
typed path when typed devices exist, else the dict heuristics over the
response's dict view. -/
def listingSummaries (env : Env) (resp : ListingResp) :
    Except SErr (List DeviceSummary) :=
  let data_dict : Option PyVal :=
    match resp.toDict with
    | some d => some d
    | none => env.cloudRespToDict
  let typed := typedOf env resp
  if ¬typed.isEmpty then
    .ok (typed.map typedSummary)
  else
    match data_dict with
    | some (.pdict fields) =>
      let raw := findDevicesRaw fields ["data", "devices", "list", "result"]
      .ok (raw.filterMap dictItemSummary)
    | _ => .error (.serviceError "Unerwartete Antwortstruktur der Geräteliste")

/-- `MammotionService.list_devices` (lines 176–331): refresh the device
listing, replace the session's typed-device index wholesale, and return
normalized summaries; three response shapes are handled (typed list;
dict with a `data|devices|list|result` key holding a list; the same key
holding a dict with a `data` list). -/
def list_devices (env : Env) (s : Session) :
    Except SErr (List DeviceSummary) × Session :=
  if ¬s.clientPresent then (.error (.authError "Not authenticated"), s)
  else
    let respOpt : Option ListingResp :=
      match env.listingResult with
      | .ok r => some r
      | .error _ => if s.mammotionPresent then env.mammotionListing else none
    match env.listingResult, respOpt with
    | .error e, none => (.error (.serviceError ("Geräteliste fehlgeschlagen: " ++ e)), s)
    | _, none => (.error (.serviceError "unreachable"), s)
    | _, some resp =>
      (listingSummaries env resp,
       { s with devices_by_iot := typedIndex (typedOf env resp) })

/-! ## Telemetry resolution (`get_device_status`, lines 333–683) -/

/-- Resolution state: the local variables of the live-status attempt just
before the work-mode decode (line 584). -/
structure Resolved where
  battery : Option Int := none
  status_text : Option String := none
  pos : Option (Rat × Rat) := none
  dock_pos : Option (Rat × Rat) := none
  rtk_pos : Option (Rat × Rat) := none
  work_mode_val : Option Int := none
  online_bool : Option Bool := none

/-- `latitude`/`longitude` of an optional point (`getattr` with `None`
default on a possibly-`None` object). -/
def pointCoord (p : Option PyPoint) : PyVal × PyVal :=
  match p with
  | some pt => (pt.latitude, pt.longitude)
  | none => (.pnone, .pnone)

/-- The guarded point extraction of the location block: numeric pair,
not both zero (lines 418–433). -/
def extractPoint (p : Option PyPoint) : Option (Rat × Rat) :=
  let (lat, lon) := pointCoord p
  if lat.isNum = true ∧ lon.isNum = true ∧ (lat.toRat ≠ 0 ∨ lon.toRat ≠ 0) then
    some (lat.toRat, lon.toRat)
  else none

/-- Location block (lines 413–437): device point, RTK point, dock point,
then dock substituted for a missing device position. -/
def blockLocation (loc : LocationObj) (r : Resolved) : Resolved :=
  let pos1 := match extractPoint loc.device with
    | some p => some p
    | none => r.pos
  let rtk1 := match extractPoint loc.RTK with
    | some p => some p
    | none => r.rtk_pos
  let dock1 := match extractPoint loc.dock with
    | some p => some p
    | none => r.dock_pos
  let pos2 := match pos1, dock1 with
    | none, some d => some d
    | p, _ => p
  { r with pos := pos2, rtk_pos := rtk1, dock_pos := dock1 }

/-- Key predicate of the battery scans: numeric value under a key
containing `batt`. -/
def battEntry (p : String × PyVal) : Bool :=
  p.2.isNum && substrIn "batt" (lowerStr p.1)

/-- Integer work/mode entry (`isinstance(v, int)` accepts booleans). -/
def workIntEntry (p : String × PyVal) : Bool :=
  p.2.isInt && (substrIn "work" (lowerStr p.1) || substrIn "mode" (lowerStr p.1))

/-- String work/mode/status entry. -/
def workStrEntry (p : String × PyVal) : Bool :=
  p.2.isStr &&
    (substrIn "work" (lowerStr p.1) || substrIn "mode" (lowerStr p.1) ||
     lowerStr p.1 == "status")

/-- `status_properties` block (lines 439–461): battery scan, a combined
work-mode/status scan stopping at the first hit of either kind, then an
unguarded position overwrite from `latitude|lat` / `longitude|lon`. -/
def blockStatusProps (pd : List (String × PyVal)) (r : Resolved) : Resolved :=
  let battery1 := match pd.find? battEntry with
    | some p => some (pyInt p.2)
    | none => r.battery
  let (wm1, st1) := match pd.find? (fun p => workIntEntry p || workStrEntry p) with
    | some p =>
      if workIntEntry p then (some (pyInt p.2), r.status_text)
      else (r.work_mode_val, some p.2.pyStr)
    | none => (r.work_mode_val, r.status_text)
  let lat := pyOrV (dictGetV pd "latitude") (dictGetV pd "lat")
  let lon := pyOrV (dictGetV pd "longitude") (dictGetV pd "lon")
  let pos1 := if lat.isNum = true ∧ lon.isNum = true then some (lat.toRat, lon.toRat)
    else r.pos
  { r with battery := battery1, work_mode_val := wm1, status_text := st1, pos := pos1 }

/-- `mqtt_properties` fallback block (lines 463–489): each field is only
filled when still unset. -/
def blockMqtt (md : List (String × PyVal)) (r : Resolved) : Resolved :=
  let battery1 := if r.battery.isNone then
      match md.find? battEntry with
      | some p => some (pyInt p.2)
      | none => r.battery
    else r.battery
  let wm1 := if r.work_mode_val.isNone then
      match md.find? workIntEntry with
      | some p => some (pyInt p.2)
      | none => r.work_mode_val
    else r.work_mode_val
  let st1 := if r.status_text.isNone ∧ wm1.isNone then
      match md.find? workStrEntry with
      | some p => some p.2.pyStr
      | none => r.status_text
    else r.status_text
  let lat := pyOrV (dictGetV md "latitude") (dictGetV md "lat")
  let lon := pyOrV (dictGetV md "longitude") (dictGetV md "lon")
  let pos1 := if r.pos.isNone ∧ lat.isNum = true ∧ lon.isNum = true then
      some (lat.toRat, lon.toRat)
    else r.pos
  { r with battery := battery1, work_mode_val := wm1, status_text := st1, pos := pos1 }

/-- The key-substring list of the deep textual-status search. -/
def statusKeyList : List String :=
  ["mode_text", "work_mode_text", "state_text", "stateName", "status_text",
   "status_name", "status_str", "status"]

/-- Deep-search block over `state.to_dict()` (lines 492–514). -/
def blockDeep (sd : PyVal) (r : Resolved) : Resolved :=
  let battery1 := if r.battery.isNone then
      match deepFindFirst ["batt", "battery"] sd with
      | some v => if v.isNum then some (pyInt v) else r.battery
      | none => r.battery
    else r.battery
  let wm1 := if r.work_mode_val.isNone then
      match deepFindWorkMode sd with
      | some n => some n
      | none => r.work_mode_val
    else r.work_mode_val
  let st1 := if r.status_text.isNone then
      match deepFindFirst statusKeyList sd with
      | some (.pstr s) => some s
      | _ => r.status_text
    else r.status_text
  let pos1 := if r.pos.isNone then
      match deepFindFirst ["latitude", "lat"] sd, deepFindFirst ["longitude", "lon"] sd with
      | some lv, some lov =>
        if lv.isNum = true ∧ lov.isNum = true then some (lv.toRat, lov.toRat) else r.pos
      | _, _ => r.pos
    else r.pos
  { r with battery := battery1, work_mode_val := wm1, status_text := st1, pos := pos1 }

/-- `getattr(state_obj, "online", None)` kept only when a strict bool
(lines 516–522). -/
def readOnline (stateObj : Option StateObj) : Option Bool :=
  match stateObj with
  | some so =>
    match so.online with
    | .pbool b => some b
    | _ => none
  | none => none

/-- `getattr(base, name, None)` over an optional attribute bag. -/
def attrBagGet (bag : Option (List (String × PyVal))) (k : String) : PyVal :=
  match bag with
  | some attrs => dictGetV attrs k
  | none => .pnone

/-- The fixed battery attribute paths of the mower fallback (lines
550–557), in probe order. -/
def mowerBatteryPaths (m : MowerObj) : List PyVal :=
  [attrBagGet m.mower_state "battery_level",
   attrBagGet m.mower_state "battery",
   attrBagGet m.mowing_state "battery",
   attrBagGet m.status_properties "battery_level",
   attrBagGet m.status_properties "batteryPercent",
   attrBagGet m.mqtt_properties "batteryPercent"]

/-- The fixed work-mode attribute paths of the mower fallback (lines
566–570), in probe order. -/
def mowerWorkPaths (m : MowerObj) : List PyVal :=
  [attrBagGet m.mower_state "work_mode",
   attrBagGet m.mowing_state "work_mode",
   attrBagGet m.status_properties "work_mode"]

/-- The work-mode path loop of the mower fallback (lines 566–581): the
first integer value sets `work_mode_val`; a first non-`None` non-integer
value sets `status_text` when it is still unset; either stops the scan. -/
def mowerWorkLoop (r : Resolved) : List PyVal → Resolved
  | [] => r
  | v :: rest =>
    if v.isInt then { r with work_mode_val := some (pyInt v) }
    else if ¬v.isNone ∧ r.status_text.isNone then { r with status_text := some v.pyStr }
    else mowerWorkLoop r rest

/-- Cloud→mower fallback block (lines 524–581), entered only when
battery, status text and position are all still unset. -/
def blockMower (cloudDev : Option CloudDev) (r : Resolved) : Resolved :=
  match cloudDev with
  | none => r
  | some cd =>
    match cd.mower with
    | none => r
    | some m =>
      let pos1 := match m.location with
        | none => r.pos
        | some loc =>
          let (lat, lon) := pointCoord loc.device
          if ¬lat.isNone ∧ ¬lon.isNone then
            -- `float(...)` of a non-numeric raises; the exception is
            -- swallowed and `pos` stays unset.
            if lat.isNum ∧ lon.isNum then some (lat.toRat, lon.toRat) else r.pos
          else r.pos
      let battery1 := match (mowerBatteryPaths m).find? (fun v => v.isNum) with
        | some v => some (pyInt v)
        | none => r.battery
      let r1 := { r with pos := pos1, battery := battery1 }
      mowerWorkLoop r1 (mowerWorkPaths m)

/-- The full live resolution over a manager: location/properties blocks
of the unified state, the online flag, then the mower fallback. -/
def resolveLive (mgr : Mgr) : Resolved :=
  let r0 : Resolved := {}
  let r1 := match mgr.state with
    | none => r0
    | some so =>
      let a := match so.location with
        | some loc => blockLocation loc r0
        | none => r0
      let b := match so.status_properties with
        | some pd => blockStatusProps pd a
        | none => a
      let c := if b.battery.isNone || b.status_text.isNone then
          match so.mqtt_properties with
          | some md => blockMqtt md b
          | none => b
        else b
      if c.battery.isNone || c.status_text.isNone || c.pos.isNone ||
          c.work_mode_val.isNone then
        match so.stateDict with
        | some sd => blockDeep sd c
        | none => c
      else c
  let r2 := { r1 with online_bool := readOnline mgr.state }
  if r2.battery.isNone ∧ r2.status_text.isNone ∧ r2.pos.isNone then
    blockMower mgr.cloudDev r2
  else r2

/-- `_clean` (lines 589–604): WGS84 range check, then near-zero
rejection. -/
def cleanPos : Option (Rat × Rat) → Option (Rat × Rat)
  | none => none
  | some (la, lo) =>
    if ¬(-90 ≤ la ∧ la ≤ 90 ∧ -180 ≤ lo ∧ lo ≤ 180) then none
    else if |la| < 1 / 10000 ∧ |lo| < 1 / 10000 then none
    else some (la, lo)

/-- The cache entry after a live update: resolved fields overwrite,
unresolved fields keep the previous value, timestamp refreshed. -/
def mergedEntry (lk : LastTelemetry) (battery wm : Option Int)
    (pos : Option (Rat × Rat)) (now : Nat) : LastTelemetry :=
  { battery := match battery with
      | some b => some b
      | none => lk.battery
    work_mode := match wm with
      | some w => some w
      | none => lk.work_mode
    position := match pos with
      | some p => some p
      | none => lk.position
    updated_at := now }

/-- Last-known cache update (lines 606–624): resolved live fields
overwrite the entry's fields; the entry is (re)stored with a fresh
timestamp only when at least one field resolved. -/
def applyCacheUpdate (store : List (String × LastTelemetry)) (device_id : String)
    (battery : Option Int) (wm : Option Int) (pos : Option (Rat × Rat))
    (now : Nat) : List (String × LastTelemetry) :=
  let lk := (alGet store device_id).getD {}
  if battery.isSome || wm.isSome || pos.isSome then
    alUpdate store device_id (mergedEntry lk battery wm pos now)
  else store

/-- A normalized telemetry snapshot (the dict returned by
`get_device_status`; the listing fallback leaves the `position_source`,
`position_updated_at`, `dock_position`, `rtk_position` and `online` keys
absent, modelled as `none`). -/
structure Telemetry where
  id : String
  battery : Option Int := none
  status : Option String := none
  position : Option (PyVal × PyVal) := none
  position_source : Option String := none
  position_updated_at : Option Nat := none
  dock_position : Option (Rat × Rat) := none
  rtk_position : Option (Rat × Rat) := none
  online : Option Bool := none
  updated_at : Nat

/-- Rational position rendered as the float pair of the response dict. -/
def ratPosVal (p : Rat × Rat) : PyVal × PyVal :=
  (.pnum p.1, .pnum p.2)

/-- Assembly of the live result (lines 583–652): work-mode decode, live
position preferred over the cached one, and the all-`None` guard that
sends the call to the listing fallback. -/
def assembleLive (device_id : String) (r : Resolved)
    (store : List (String × LastTelemetry)) (now : Nat) : Option Telemetry :=
  let status_text := match r.work_mode_val with
    | some n => some (mapWorkMode n)
    | none => r.status_text
  let posC := cleanPos r.pos
  let dockC := cleanPos r.dock_pos
  let rtkC := cleanPos r.rtk_pos
  let lk := alGet store device_id
  let (pos_out, pos_source, pos_upd) :=
    match posC with
    | some p => (some (ratPosVal p), some "live", some now)
    | none =>
      match lk with
      | some l =>
        match l.position with
        | some p => (some (ratPosVal p), some "cached", some l.updated_at)
        | none => (none, none, none)
      | none => (none, none, none)
  if r.battery.isSome || status_text.isSome || pos_out.isSome ||
      r.online_bool.isSome then
    some
      { id := device_id
        battery := r.battery
        status := status_text
        position := pos_out
        position_source := pos_source
        position_updated_at := pos_upd
        dock_position := dockC
        rtk_position := rtkC
        online := r.online_bool
        updated_at := now }
  else none

/-! ## Manager cache (`_get_or_create_manager`, lines 766–856) -/

/-- Identity-metadata repair (lines 784–801): when the descriptor's
`identityId` is missing or blank, a `list_binding_by_dev` lookup
replaces the cached descriptor; every failure is swallowed. -/
def repairIdentity (env : Env) (s : Session) (device_id : String)
    (dev : TypedDevice) : Session :=
  let identMissing := match dev.identityId with
    | none => true
    | some i => trimStr i = ""
  if identMissing then
    match env.listBindingByDev device_id with
    | some d0 => { s with devices_by_iot := alUpdate s.devices_by_iot device_id d0 }
    | none => s
  else s

/-- `_get_or_create_manager`: cached handle, else locate the descriptor,
repair missing identity metadata via a single-device lookup, then create
a manager through the orchestrator or the direct constructor.  The
result is `none` (divergence) when the descriptor is absent: the code
then calls `list_devices`, which re-acquires the non-reentrant session
lock already held here, so the call never completes. -/
def get_or_create_manager (env : Env) (st : SState) (device_id : String) :
    Option (Except SErr Mgr × SState) :=
  let s := st.session
  if ¬s.clientPresent then some (.error (.authError "Not authenticated"), st)
  else
    match alGet s.managers_by_iot device_id with
    | some mgr => some (.ok mgr, st)
    | none =>
      match alGet s.devices_by_iot device_id with
      | none => none
      | some dev =>
        let s1 := repairIdentity env s device_id dev
        if s.mammotionPresent ∧ env.mqttClientPresent then
          match env.orchestratorMgr with
          | some mgr =>
            some (.ok mgr,
              { session := { s1 with managers_by_iot := alUpdate s1.managers_by_iot device_id mgr }
                constructions := st.constructions + 1 })
          | none =>
            -- orchestrator creation raised; fall through to the
            -- direct constructor (one more creation attempt).
            match env.constructedMgr with
            | none =>
              some (.error (.serviceError "Gerätemanager-Initialisierung fehlgeschlagen"),
                { session := s1, constructions := st.constructions + 2 })
            | some mgr =>
              some (.ok mgr,
                { session := { s1 with managers_by_iot := alUpdate s1.managers_by_iot device_id mgr }
                  constructions := st.constructions + 2 })
        else
          match env.constructedMgr with
          | none =>
            some (.error (.serviceError "Gerätemanager-Initialisierung fehlgeschlagen"),
              { session := s1, constructions := st.constructions + 1 })
          | some mgr =>
            some (.ok mgr,
              { session := { s1 with managers_by_iot := alUpdate s1.managers_by_iot device_id mgr }
                constructions := st.constructions + 1 })

/-! ## `get_device_status` -/

/-- The live-status attempt (the big `try` of lines 336–655): any
failure of the manager step is swallowed; a manager in hand runs the
resolver, updates the last-known cache and assembles the live dict. -/
def liveAttempt (env : Env) (st : SState) (device_id : String) :
    Option (Option Telemetry × SState) :=
  match get_or_create_manager env st device_id with
  | none => none
  | some (.error _, st1) => some (none, st1)
  | some (.ok mgr, st1) =>
    let r := resolveLive mgr
    let posC := cleanPos r.pos
    let store1 := applyCacheUpdate st1.session.last_known_by_iot device_id
      r.battery r.work_mode_val posC env.nowTs
    let st2 := { st1 with session := { st1.session with last_known_by_iot := store1 } }
    some (assembleLive device_id r store1 env.nowTs, st2)

/-- The listing-snapshot fallback result (lines 671–677): the summary's
fields are passed through as-is. -/
def snapshotTelemetry (d : DeviceSummary) (device_id : String) (now : Nat) :
    Telemetry :=
  { id := device_id
    battery := d.battery
    status := some d.status
    position := d.position
    updated_at := now }

/-- `MammotionService.get_device_status` (lines 333–683): live status if
possible, else the last listing snapshot, else `NotFoundError`.  `none`
models divergence of the manager step (see `get_or_create_manager`). -/
def get_device_status (env : Env) (st : SState) (device_id : String) :
    Option (Except SErr Telemetry × SState) :=
  match liveAttempt env st device_id with
  | none => none
  | some (some t, st1) => some (.ok t, st1)
  | some (none, st1) =>
    match list_devices env st1.session with
    | (.error e, s2) => some (.error e, { st1 with session := s2 })
    | (.ok devs, s2) =>
      match devs.find? (fun d => d.id = device_id) with
      | some d => some (.ok (snapshotTelemetry d device_id env.nowTs),
          { st1 with session := s2 })
      | none => some (.error (.notFoundError "Device not found"),
          { st1 with session := s2 })

/-! ## `login` (lines 84–174) -/

/-- Outcomes of the individual handshake steps of one `login` run: three
preparatory steps (library import, HTTP-client and gateway creation),
the five cloud stages, and the two best-effort follow-ups. -/
structure LoginStages where
  importsOk : Bool := true
  httpInitOk : Bool := true
  gatewayInitOk : Bool := true
  httpLogin : Except String Unit := .ok ()
  getRegion : Except String Unit := .ok ()
  connectStep : Except String Unit := .ok ()
  loginByOauth : Except String Unit := .ok ()
  sessionByAuthCode : Except String Unit := .ok ()
  aepOk : Bool := true
  mammotionInit : Bool := false

/-- `MammotionService.login`: the five-stage handshake; any stage failure
raises `AuthError` before a session is stored; `aep_handle` and the
orchestrator/MQTT initialization are best-effort; on success a fresh
session id maps to the new `AuthSession` in the store. -/
def login (stages : LoginStages) (store : List (String × Session))
    (sid email : String) : Except SErr String × List (String × Session) :=
  if ¬stages.importsOk then
    (.error (.authError "PyMammotion import failed"), store)
  else if ¬stages.httpInitOk then
    (.error (.authError "Failed to initialize MammotionHTTP"), store)
  else if ¬stages.gatewayInitOk then
    (.error (.authError "Failed to initialize CloudIOTGateway"), store)
  else
    match stages.httpLogin with
    | .error _ => (.error (.authError "Authentication failed"), store)
    | .ok _ =>
      match stages.getRegion with
      | .error e => (.error (.authError ("Region discovery failed: " ++ e)), store)
      | .ok _ =>
        match stages.connectStep with
        | .error e => (.error (.authError ("Connect failed: " ++ e)), store)
        | .ok _ =>
          match stages.loginByOauth with
          | .error e => (.error (.authError ("OAuth login failed: " ++ e)), store)
          | .ok _ =>
            match stages.sessionByAuthCode with
            | .error e => (.error (.authError ("Session creation failed: " ++ e)), store)
            | .ok _ =>
              let session : Session :=
                { email := email
                  clientPresent := true
                  mammotionPresent := stages.mammotionInit }
              (.ok sid, alUpdate store sid session)

/-! ## Command dispatch -/

/-- Capabilities visible to `MammotionService.send_command`: the device's
cloud handle and optional mower object with the method names `hasattr`
finds on each, and the `queue_command` fallback. -/
structure DispatchCaps where
  cloudDevPresent : Bool := true
  mowerPresent : Bool := false
  mowerMethods : List String := []
  cloudMethods : List String := []
  queueAvailable : Bool := false

/-- What a dispatch did: invoked a named method on the mower or cloud
object, queued a generic command, or fell through silently (the Python
function returns `None` without invoking anything). -/
inductive Dispatched where
  | invoked (target : String) (method : String)
  | queued (cmd : String)
  | silent
deriving DecidableEq, Repr

/-- `mower_obj if mower_obj and hasattr(mower_obj, path) else cloud_dev
if hasattr(cloud_dev, path) else None`. -/
def findTarget (caps : DispatchCaps) (path : String) : Option String :=
  if caps.mowerPresent && caps.mowerMethods.contains path then some "mower"
  else if caps.cloudMethods.contains path then some "cloud"
  else none

/-- Probe the ordered candidate paths; first present one wins. -/
def probePaths (caps : DispatchCaps) : List String → Option Dispatched
  | [] => none
  | p :: rest =>
    match findTarget caps p with
    | some t => some (.invoked t p)
    | none => probePaths caps rest

/-- One branch of the service dispatcher: candidate probing, then the
`queue_command` fallback, then the silent fall-through. -/
def branchDispatch (caps : DispatchCaps) (paths : List String)
    (queueCmd : String) : Dispatched :=
  match probePaths caps paths with
  | some d => d
  | none => if caps.queueAvailable then .queued queueCmd else .silent

/-- `MammotionService.send_command` (lines 685–750) from the point the
manager's cloud handle has been fetched: `cmd = command.lower().strip()`,
then three branches — `start|start_mowing`, `pause|stop` (one shared
candidate list), `dock|return|return_to_dock` — and `CommandError` for
anything else.  Method invocations are assumed not to raise (a raising
invocation would wrap into `CommandError`; no claim exercises it). -/
def serviceSendCommand (caps : DispatchCaps) (command : String) :
    Except SErr Dispatched :=
  let cmd := trimStr (lowerStr command)
  if ¬caps.cloudDevPresent then
    .error (.commandError "Cloud-Verbindung zum Gerät nicht verfügbar")
  else if cmd = "start" ∨ cmd = "start_mowing" then
    .ok (branchDispatch caps ["start_map_hash", "start", "start_sync"] "start")
  else if cmd = "pause" ∨ cmd = "stop" then
    .ok (branchDispatch caps ["pause_device", "stop_device", "stop"] "stop")
  else if cmd = "dock" ∨ cmd = "return" ∨ cmd = "return_to_dock" then
    .ok (branchDispatch caps ["return_to_dock"] "return_to_dock")
  else .error (.commandError ("Unbekannter Befehl: " ++ command))

/-- The action→method table of `PyMammotionClient.send_command` (lines
223–262): canonical synonym sets mapping to one device method each, with
the per-action "not supported" message. -/
def clientActionMethod (action : String) : Option (String × String) :=
  if action = "start" ∨ action = "start_mowing" then
    some ("start_map_hash", "Start mowing not supported by device")
  else if action = "pause" then
    some ("pause_device", "Pause not supported by device")
  else if action = "resume" then
    some ("resume_device", "Resume not supported by device")
  else if action = "stop" ∨ action = "stop_mowing" then
    some ("stop_device", "Stop not supported by device")
  else if action = "return" ∨ action = "return_to_dock" ∨ action = "dock" then
    some ("return_to_dock", "Return to dock not supported by device")
  else if action = "edge_cut" then
    some ("start_edge_cut", "Edge cut not supported by device")
  else none

/-- `PyMammotionClient.send_command` (lines 211–268): authentication and
device checks, `action = action.lower()`, then the closed synonym table;
an unknown action raises `ValueError`, a known action without its device
method raises `RuntimeError`.  Returns the invoked method name. -/
def clientSendCommand (authenticated devFound : Bool) (devMethods : List String)
    (device_id action : String) : Except PyErr String :=
  if ¬authenticated then .error (.runtimeError "Not authenticated")
  else if ¬devFound then
    .error (.runtimeError ("Device " ++ device_id ++ " not found"))
  else
    let a := lowerStr action
    match clientActionMethod a with
    | some (m, msg) =>
      if devMethods.contains m then .ok m else .error (.runtimeError msg)
    | none => .error (.valueError ("Unsupported action: " ++ a))

/-! ## Retry wrapper (`pymammotion_client.py`, lines 293–340) -/

/-- `health_check`: fails when unauthenticated or the manager is absent,
else succeeds iff the minimal list-devices probe does. -/
def healthCheck (authenticated mgrPresent listDevicesOk : Bool) : Bool :=
  if ¬authenticated || ¬mgrPresent then false else listDevicesOk

/-- The message of the reauthentication-required error raised by
`ensure_connection`. -/
def reauthRequiredMsg : String := "Connection lost, re-authentication required"

/-- `ensure_connection`: raise `RuntimeError` when the health probe
fails. -/
def ensureConnection (healthy : Bool) : Except PyErr Unit :=
  if healthy then .ok () else .error (.runtimeError reauthRequiredMsg)

/-- Counters of one `with_retry` run: wrapped-operation executions,
health probes, and backoff sleeps. -/
structure RetryStats where
  opCalls : Nat := 0
  probeCalls : Nat := 0
  sleeps : Nat := 0
deriving DecidableEq, Repr

/-- The terminal error of `with_retry`: `RuntimeError(f"Operation failed
after {N} attempts: {last_error}")`, retaining the last cause. -/
inductive WrapErr where
  | opFailed (attempts : Nat) (lastCause : Option PyErr)
deriving DecidableEq, Repr

/-- What attempt `i` of `with_retry` raises or returns: the probe gates
the wrapped call. -/
def attemptResult {A : Type} (health : Nat → Bool) (op : Nat → Except PyErr A)
    (i : Nat) : Except PyErr A :=
  match ensureConnection (health i) with
  | .error e => .error e
  | .ok _ => op i

/-- The attempt loop of `with_retry`; `remaining` counts attempts left,
`i` is the current attempt index, `last` the last caught error. -/
def withRetryGo {A : Type} (N : Nat) (health : Nat → Bool)
    (op : Nat → Except PyErr A) :
    Nat → Nat → Option PyErr → RetryStats → Except WrapErr A × RetryStats
  | 0, _, last, stats => (.error (.opFailed N last), stats)
  | rem + 1, i, _last, stats =>
    if health i then
      let stats1 := { stats with probeCalls := stats.probeCalls + 1
                                 opCalls := stats.opCalls + 1 }
      match op i with
      | .ok a => (.ok a, stats1)
      | .error e =>
        let stats2 := if rem > 0 then { stats1 with sleeps := stats1.sleeps + 1 }
          else stats1
        withRetryGo N health op rem (i + 1) (some e) stats2
    else
      let stats1 := { stats with probeCalls := stats.probeCalls + 1 }
      let e := PyErr.runtimeError reauthRequiredMsg
      let stats2 := if rem > 0 then { stats1 with sleeps := stats1.sleeps + 1 }
        else stats1
      withRetryGo N health op rem (i + 1) (some e) stats2

/-- `PyMammotionClient.with_retry` (lines 320–340): up to `N` attempts;
each attempt first runs `ensure_connection` and then the operation, with
every exception — including the reauthentication-required one — caught,
remembered as `last_error` and retried after a fixed delay; exhaustion
raises the wrapping `RuntimeError` with the last cause. -/
def withRetry {A : Type} (N : Nat) (health : Nat → Bool)
    (op : Nat → Except PyErr A) : Except WrapErr A × RetryStats :=
  withRetryGo N health op N 0 none {}

/-- Accessors of the wrapped terminal error. -/
def WrapErr.attempts : WrapErr → Nat
  | .opFailed n _ => n

def WrapErr.lastCause : WrapErr → Option PyErr
  | .opFailed _ c => c

/-- The error carried by a failed attempt, `none` for a success. -/
def errOf {A : Type} : Except PyErr A → Option PyErr
  | .error e => some e
  | .ok _ => none

/-! ## Derived predicates used by the verification statements -/

/-- Coordinate validity as enforced by `_clean`. -/
def validCoord (la lo : Rat) : Bool :=
  (decide (-90 ≤ la) && decide (la ≤ 90) &&
   decide (-180 ≤ lo) && decide (lo ≤ 180)) &&
  !(decide (|la| < 1 / 10000) && decide (|lo| < 1 / 10000))

/-- Validity of a position value pair in a response dict: a numeric pair
passing `validCoord`. -/
def validPosPair : PyVal × PyVal → Bool
  | (.pnum la, .pnum lo) => validCoord la lo
  | _ => false

/-- Every cached position in a last-known store is validated. -/
def validStore (store : List (String × LastTelemetry)) : Bool :=
  store.all fun p =>
    match p.2.position with
    | some q => validCoord q.1 q.2
    | none => true

/-- "No live telemetry field resolves": the resolution produced no
battery, no textual status, no work-mode integer, no valid position and
no online flag. -/
def NoLiveResolved (r : Resolved) : Prop :=
  r.battery = none ∧ r.status_text = none ∧ r.work_mode_val = none ∧
  cleanPos r.pos = none ∧ r.online_bool = none

/-- A handshake stage raised. -/
def stageFailed : Except String Unit → Bool
  | .error _ => true
  | .ok _ => false

/-- The synonym set accepted by the client-layer dispatcher. -/
def clientSynonyms : List String :=
  ["start", "start_mowing", "pause", "resume", "stop", "stop_mowing",
   "return", "return_to_dock", "dock", "edge_cut"]

/-! ## Concrete fixtures for witnesses and counterexamples -/

/-- A logical device as the shape-equivalence statement quantifies it. -/
structure LogicalDevice where
  id : String
  name : String
  model : String
deriving DecidableEq, Repr

/-- The typed-record rendering of a logical device. -/
def ldTyped (l : LogicalDevice) : TypedDevice :=
  { iotId := some l.id, nickName := some l.name, productModel := some l.model }

/-- The raw-dict rendering of a logical device. -/
def ldItem (l : LogicalDevice) : PyVal :=
  .pdict [("iotId", .pstr l.id), ("nickName", .pstr l.name),
          ("productModel", .pstr l.model)]

/-- Listing shape 1: typed device list (`resp.data.data`). -/
def shapeTyped (lds : List LogicalDevice) : ListingResp :=
  { typedData := some (lds.map ldTyped) }

/-- Listing shape 2: dict with a key holding a flat device list. -/
def shapeKeyList (lds : List LogicalDevice) : ListingResp :=
  { toDict := some (.pdict [("data", .plist (lds.map ldItem))]) }

/-- Listing shape 3: dict with a key holding a nested dict with a `data`
list. -/
def shapeKeyNested (lds : List LogicalDevice) : ListingResp :=
  { toDict := some (.pdict [("data", .pdict [("data", .plist (lds.map ldItem))])]) }

/-- An environment that answers the account listing with `r`. -/
def envOfResp (r : ListingResp) : Env :=
  { listingResult := .ok r }

/-- A bare top-level list response: `to_dict` yields a list, no typed
`data.data` attributes. -/
def flatListResp : ListingResp :=
  { toDict := some (.plist [ldItem ⟨"dev1", "Luba 2", "Luba2AWD"⟩]) }

/-- A manager whose state access raises and whose cloud handle is
`None`: nothing resolves. -/
def mgrEmpty : Mgr := { mid := 0 }

/-- A constructed manager handle for the idempotence witness. -/
def mgrSeven : Mgr := { mid := 7 }

/-- A typed descriptor with identity metadata present. -/
def devD1 : TypedDevice := { iotId := some "d1", identityId := some "ident" }

/-- A session that knows device `d1` but has no manager yet. -/
def sessW : Session := { devices_by_iot := [("d1", devD1)] }

/-- An environment whose direct constructor succeeds. -/
def envW : Env := { constructedMgr := some mgrSeven }

/-- The state after the first (constructing) manager call of the
idempotence witness. -/
def st1W : SState :=
  { session := { sessW with managers_by_iot := [("d1", mgrSeven)] }
    constructions := 1 }

/-- A manager whose unified state exposes only a dock point: no device
point, no RTK point, no property bags, no state dict, no mower model. -/
def dockOnlyMgr (la lo : Rat) : Mgr :=
  { mid := 1
    state := some
      { location := some
          { dock := some { latitude := .pnum la, longitude := .pnum lo } } } }

/-- A session that knows manager `d1` (which resolves nothing) and has a
cached battery — but no cached position — for it. -/
def sessC2 : Session :=
  { managers_by_iot := [("d1", mgrEmpty)]
    last_known_by_iot := [("d1", { battery := some 77, updated_at := 5 })] }

/-- An environment whose account listing is a typed list containing
device `d1`. -/
def envListD1 : Env :=
  { listingResult := .ok (shapeTyped [⟨"d1", "Luba", "L2"⟩]), nowTs := 100 }

/-- A session that knows manager `d1` (which resolves nothing) and has
no cache. -/
def sessC4 : Session := { managers_by_iot := [("d1", mgrEmpty)] }

/-- An environment whose listing is dict-shaped and carries an invalid
coordinate pair (latitude 999) for device `d1`. -/
def envC4 : Env :=
  { listingResult := .ok
      { toDict := some (.pdict [("data", .plist
          [.pdict [("iotId", .pstr "d1"), ("latitude", .pint 999),
                   ("longitude", .pint 50)]])]) }
    nowTs := 7 }

/-- A session whose only manager exposes a dock point at (47.1, 8.2). -/
def sessDock : Session :=
  { managers_by_iot := [("d1", dockOnlyMgr (471 / 10) (41 / 5))] }

/-- A device with every candidate control method available on its mower
object, plus the queue fallback. -/
def capsAll : DispatchCaps :=
  { cloudDevPresent := true
    mowerPresent := true
    mowerMethods := ["start_map_hash", "pause_device", "stop_device", "stop",
                     "resume_device", "return_to_dock", "start_edge_cut"]
    cloudMethods := []
    queueAvailable := true }

end MammotionWeb

namespace MammotionWeb

/-! ## Shared lemmas -/

theorem alGet_alUpdate_self {α : Type} (l : List (String × α)) (k : String) (v : α) :
    alGet (alUpdate l k v) k = some v := by
  induction l with
  | nil => simp [alGet, alUpdate, List.find?]
  | cons p rest ih =>
    by_cases hp : p.1 = k
    · simp [alUpdate, hp, alGet, List.find?]
    · simp [alUpdate, hp, alGet, List.find?] at ih ⊢
      exact ih

theorem mem_alUpdate {α : Type} (l : List (String × α)) (k : String) (v : α)
    (x : String × α) (hx : x ∈ alUpdate l k v) : x ∈ l ∨ x = (k, v) := by
  induction l with
  | nil => simpa [alUpdate] using hx
  | cons p rest ih =>
    by_cases hp : p.1 = k
    · simp [alUpdate, hp] at hx
      rcases hx with h | h
      · right; simpa using h
      · left; exact List.mem_cons_of_mem _ h
    · simp [alUpdate, hp] at hx
      rcases hx with h | h
      · left; simp [h]
      · rcases ih h with h' | h'
        · left; exact List.mem_cons_of_mem _ h'
        · right; exact h'

theorem alGet_mem {α : Type} (l : List (String × α)) (k : String) (v : α)
    (h : alGet l k = some v) : (k, v) ∈ l := by
  induction l with
  | nil => simp [alGet] at h
  | cons p rest ih =>
    by_cases hp : p.1 = k
    · unfold alGet at h
      rw [List.find?_cons_of_pos _ (by simp [hp])] at h
      simp at h
      obtain ⟨a, b⟩ := p
      simp at hp
      subst hp
      simp at h
      subst h
      exact List.mem_cons_self _ _
    · unfold alGet at h
      rw [List.find?_cons_of_neg _ (by simp [hp])] at h
      exact List.mem_cons_of_mem _ (ih h)

end MammotionWeb

namespace MammotionWeb

/-! ## C3 — work-mode decoding -/

/-- C3 counterexample: the claim states that every integer outside
{11, 13, 14, 15, 19, 1, 2, 17, 16, 23} decodes to `mode_<n>`, but the
decoder's table also maps `0` (`MODE_NOT_ACTIVE`) to `"standby"`, so the
claim fails at the concrete input 0. -/
theorem c3_counterexample :
    mapWorkMode 0 = "standby" ∧ mapWorkMode 0 ≠ "mode_0" := by
  decide

/-- C3 (amended): the decode table maps 11 and 0 to `standby`, 13 to
`mowing`, 14 to `returning`, 15 to `charging`, 19 to `paused`, 1 to
`online`, 2 to `offline`, 17 to `locked`, 16 to `updating`, 23 to
`update_failed`; every integer outside this eleven-code set decodes to
`mode_<n>`; and whenever a work-mode integer resolves, the textual
status of the assembled live telemetry is exactly its decode. -/
theorem c3_work_mode_decoding :
    (mapWorkMode 11 = "standby" ∧ mapWorkMode 0 = "standby" ∧
     mapWorkMode 13 = "mowing" ∧ mapWorkMode 14 = "returning" ∧
     mapWorkMode 15 = "charging" ∧ mapWorkMode 19 = "paused" ∧
     mapWorkMode 1 = "online" ∧ mapWorkMode 2 = "offline" ∧
     mapWorkMode 17 = "locked" ∧ mapWorkMode 16 = "updating" ∧
     mapWorkMode 23 = "update_failed") ∧
    (∀ n : Int, n ∉ ([0, 1, 2, 11, 13, 14, 15, 16, 17, 19, 23] : List Int) →
      mapWorkMode n = "mode_" ++ toString n) ∧
    (∀ (device_id : String) (r : Resolved)
       (store : List (String × LastTelemetry)) (now : Nat) (n : Int)
       (t : Telemetry),
      r.work_mode_val = some n →
      assembleLive device_id r store now = some t →
      t.status = some (mapWorkMode n)) := by
  refine ⟨by decide, ?_, ?_⟩
  · intro n hn
    simp only [List.mem_cons, List.not_mem_nil, or_false] at hn
    push_neg at hn
    obtain ⟨h0, h1, h2, h11, h13, h14, h15, h16, h17, h19, h23⟩ := hn
    have e0 : (n == 0) = false := by simpa using h0
    have e1 : (n == 1) = false := by simpa using h1
    have e2 : (n == 2) = false := by simpa using h2
    have e11 : (n == 11) = false := by simpa using h11
    have e13 : (n == 13) = false := by simpa using h13
    have e14 : (n == 14) = false := by simpa using h14
    have e15 : (n == 15) = false := by simpa using h15
    have e16 : (n == 16) = false := by simpa using h16
    have e17 : (n == 17) = false := by simpa using h17
    have e19 : (n == 19) = false := by simpa using h19
    have e23 : (n == 23) = false := by simpa using h23
    simp [mapWorkMode, workModeTable, List.lookup, e0, e1, e2, e11, e13,
      e14, e15, e16, e17, e19, e23]
  · intro device_id r store now n t hw ht
    unfold assembleLive at ht
    rw [hw] at ht
    simp only [Option.isSome_some, Bool.true_or, Bool.or_true] at ht
    split at ht
    · cases ht
      rfl
    · exact absurd ht (by simp)

end MammotionWeb

namespace MammotionWeb

/-- C3 witness: the amended theorem applied at code 42 (outside the
table) and at a resolution carrying work-mode 13. -/
theorem c3_work_mode_decoding_witness :
    mapWorkMode 42 = "mode_42" ∧
    ({ id := "d1", status := some "mowing", updated_at := 0 } : Telemetry).status
      = some (mapWorkMode 13) :=
  ⟨c3_work_mode_decoding.2.1 42 (by decide),
   c3_work_mode_decoding.2.2 "d1" { work_mode_val := some 13 } [] 0 13
     { id := "d1", status := some "mowing", updated_at := 0 } rfl rfl⟩

/-! ## C1 — login handshake atomicity -/

/-- C1: whenever any of the five handshake stages (credential exchange,
region discovery, connect, OAuth login, session-by-auth-code) raises,
`login` raises `AuthError` and the session store is unchanged — no new
session id, no new `AuthSession` entry. -/
theorem c1_login_atomicity (stages : LoginStages)
    (store : List (String × Session)) (sid email : String)
    (h : stageFailed stages.httpLogin = true ∨
         stageFailed stages.getRegion = true ∨
         stageFailed stages.connectStep = true ∨
         stageFailed stages.loginByOauth = true ∨
         stageFailed stages.sessionByAuthCode = true) :
    (∃ m, (login stages store sid email).1 = .error (.authError m)) ∧
    (login stages store sid email).2 = store := by
  obtain ⟨io, hio, gio, hl, gr, cs, lo, sb, ae, mi⟩ := stages
  cases io <;> cases hio <;> cases gio <;> cases hl <;> cases gr <;>
    cases cs <;> cases lo <;> cases sb <;> simp_all [login, stageFailed]

/-- C1 witness: a run whose region-discovery stage fails leaves the empty
store empty and errors with `AuthError`. -/
theorem c1_login_atomicity_witness :
    (∃ m, (login { getRegion := .error "boom" } [] "sid1" "a@b.c").1
      = .error (.authError m)) ∧
    (login { getRegion := .error "boom" } [] "sid1" "a@b.c").2 = [] :=
  c1_login_atomicity { getRegion := .error "boom" } [] "sid1" "a@b.c"
    (Or.inr (Or.inl rfl))

end MammotionWeb

namespace MammotionWeb

/-! ## C7 — command normalization -/

/-- C7 counterexample: the claim places `resume` in the closed action
set, but the service-layer `send_command` has no `resume` branch: on a
fully capable device (every candidate method present, queue available)
`send_command(.., "resume")` raises `CommandError` instead of invoking a
resume action. -/
theorem c7_counterexample :
    serviceSendCommand capsAll "resume"
      = .error (.commandError "Unbekannter Befehl: resume") := by
  rfl

/-- C7 (amended): the service layer normalizes case-insensitively (with
whitespace stripping) onto the closed set {start|start_mowing,
pause|stop, dock|return|return_to_dock} — `Start_Mowing` and `start`
dispatch identically, `pause` and `stop` share one candidate list and
dispatch identically, and everything else (including `resume` and
`edge_cut`) raises `CommandError`.  The client layer supports the full
set {start, pause, resume, stop, return_to_dock, edge_cut}, each with
its own device method, but raises `ValueError`, not `CommandError`, for
unknown actions. -/
theorem c7_command_normalization :
    (∀ caps : DispatchCaps,
      serviceSendCommand caps "Start_Mowing" = serviceSendCommand caps "start") ∧
    (∀ caps : DispatchCaps,
      serviceSendCommand caps "pause" = serviceSendCommand caps "stop") ∧
    (∀ caps : DispatchCaps, caps.cloudDevPresent = true →
      serviceSendCommand caps "resume"
        = .error (.commandError "Unbekannter Befehl: resume") ∧
      serviceSendCommand caps "edge_cut"
        = .error (.commandError "Unbekannter Befehl: edge_cut")) ∧
    (∀ (auth dev : Bool) (ms : List String) (did : String),
      clientSendCommand auth dev ms did "Start_Mowing"
        = clientSendCommand auth dev ms did "start") ∧
    ((clientActionMethod "start").map Prod.fst = some "start_map_hash" ∧
     (clientActionMethod "start_mowing").map Prod.fst = some "start_map_hash" ∧
     (clientActionMethod "pause").map Prod.fst = some "pause_device" ∧
     (clientActionMethod "resume").map Prod.fst = some "resume_device" ∧
     (clientActionMethod "stop").map Prod.fst = some "stop_device" ∧
     (clientActionMethod "return_to_dock").map Prod.fst = some "return_to_dock" ∧
     (clientActionMethod "dock").map Prod.fst = some "return_to_dock" ∧
     (clientActionMethod "edge_cut").map Prod.fst = some "start_edge_cut") ∧
    (∀ (a did : String) (ms : List String), lowerStr a ∉ clientSynonyms →
      clientSendCommand true true ms did a
        = .error (.valueError ("Unsupported action: " ++ lowerStr a))) := by
  refine ⟨fun caps => rfl, fun caps => rfl, ?_, ?_, by decide, ?_⟩
  · intro caps hc
    obtain ⟨cp, mp, mm, cm, qa⟩ := caps
    replace hc : cp = true := hc
    subst hc
    exact ⟨rfl, rfl⟩
  · intro auth dev ms did
    cases auth <;> cases dev <;> rfl
  · intro a did ms hn
    simp only [clientSynonyms, List.mem_cons, List.not_mem_nil, or_false] at hn
    push_neg at hn
    obtain ⟨n1, n2, n3, n4, n5, n6, n7, n8, n9, n10⟩ := hn
    simp [clientSendCommand, clientActionMethod, n1, n2, n3, n4, n5, n6,
      n7, n8, n9, n10]

/-- C7 witness: `resume` rejected on a fully capable device; `banana`
rejected by the client with `ValueError`. -/
theorem c7_command_normalization_witness :
    (serviceSendCommand capsAll "resume"
      = .error (.commandError "Unbekannter Befehl: resume") ∧
     serviceSendCommand capsAll "edge_cut"
      = .error (.commandError "Unbekannter Befehl: edge_cut")) ∧
    clientSendCommand true true [] "dev1" "banana"
      = .error (.valueError ("Unsupported action: " ++ lowerStr "banana")) :=
  ⟨c7_command_normalization.2.2.1 capsAll rfl,
   c7_command_normalization.2.2.2.2.2 "banana" "dev1" [] (by decide)⟩

end MammotionWeb

namespace MammotionWeb

/-! ## C8 — retry wrapper -/

theorem withRetryGo_counts {A : Type} (N : Nat) (health : Nat → Bool)
    (op : Nat → Except PyErr A) :
    ∀ (rem i : Nat) (last : Option PyErr) (stats : RetryStats),
      (withRetryGo N health op rem i last stats).2.opCalls ≤
        stats.opCalls + ((List.range' i rem).filter (fun j => health j)).length ∧
      (withRetryGo N health op rem i last stats).2.probeCalls ≤
        stats.probeCalls + rem ∧
      (withRetryGo N health op rem i last stats).2.sleeps ≤
        stats.sleeps + (rem - 1) := by
  intro rem
  induction rem with
  | zero =>
    intro i last stats
    simp [withRetryGo]
  | succ rem ih =>
    intro i last stats
    simp only [withRetryGo, List.range']
    by_cases hh : health i
    · simp only [hh, if_true]
      cases hop : op i with
      | ok a =>
        simp [hh, List.filter]
      | error e =>
        have := ih (i + 1) (some e)
          (if rem > 0 then
            { stats with probeCalls := stats.probeCalls + 1
                         opCalls := stats.opCalls + 1
                         sleeps := stats.sleeps + 1 }
           else
            { stats with probeCalls := stats.probeCalls + 1
                         opCalls := stats.opCalls + 1 })
        by_cases hrem : rem > 0 <;>
          · simp only [hrem, if_true, if_false, reduceIte] at this ⊢
            simp [hh, List.filter] at this ⊢
            omega
    · simp only [hh, if_false, Bool.false_eq_true, reduceIte]
      have := ih (i + 1) (some (PyErr.runtimeError reauthRequiredMsg))
        (if rem > 0 then
          { stats with probeCalls := stats.probeCalls + 1
                       sleeps := stats.sleeps + 1 }
         else { stats with probeCalls := stats.probeCalls + 1 })
      by_cases hrem : rem > 0 <;>
        · simp only [hrem, if_true, if_false, reduceIte] at this ⊢
          simp [hh, List.filter] at this ⊢
          omega

theorem withRetryGo_error {A : Type} (N : Nat) (health : Nat → Bool)
    (op : Nat → Except PyErr A) :
    ∀ (rem i : Nat) (last : Option PyErr) (stats : RetryStats) (w : WrapErr),
      (withRetryGo N health op rem i last stats).1 = .error w →
      w.attempts = N ∧
      (∀ j, j < rem → (errOf (attemptResult health op (i + j))).isSome) ∧
      w.lastCause = (match rem with
        | 0 => last
        | r + 1 => errOf (attemptResult health op (i + r))) := by
  intro rem
  induction rem with
  | zero =>
    intro i last stats w hw
    simp [withRetryGo] at hw
    subst hw
    exact ⟨rfl, by omega, rfl⟩
  | succ rem ih =>
    intro i last stats w hw
    simp only [withRetryGo] at hw
    by_cases hh : health i
    · simp only [hh, if_true] at hw
      cases hop : op i with
      | ok a => rw [hop] at hw; simp at hw
      | error e =>
        rw [hop] at hw
        simp only at hw
        obtain ⟨ha, hfail, hlast⟩ := ih (i + 1) (some e) _ w hw
        refine ⟨ha, ?_, ?_⟩
        · intro j hj
          match j, hj with
          | 0, _ =>
            simp [attemptResult, ensureConnection, hh, hop, errOf]
          | k + 1, hj =>
            have hk := hfail k (by omega)
            have he : i + 1 + k = i + (k + 1) := by omega
            rw [he] at hk
            exact hk
        · cases rem with
          | zero =>
            simpa [attemptResult, ensureConnection, hh, hop, errOf] using hlast
          | succ r =>
            rw [hlast]
            show errOf (attemptResult health op (i + 1 + r))
              = errOf (attemptResult health op (i + (r + 1)))
            have he : i + 1 + r = i + (r + 1) := by omega
            rw [he]
    · simp only [hh, Bool.false_eq_true, reduceIte] at hw
      obtain ⟨ha, hfail, hlast⟩ :=
        ih (i + 1) (some (PyErr.runtimeError reauthRequiredMsg)) _ w hw
      refine ⟨ha, ?_, ?_⟩
      · intro j hj
        match j, hj with
        | 0, _ =>
          simp [attemptResult, ensureConnection, hh, errOf]
        | k + 1, hj =>
          have hk := hfail k (by omega)
          have he : i + 1 + k = i + (k + 1) := by omega
          rw [he] at hk
          exact hk
      · cases rem with
        | zero =>
          simpa [attemptResult, ensureConnection, hh, errOf] using hlast
        | succ r =>
          rw [hlast]
          show errOf (attemptResult health op (i + 1 + r))
            = errOf (attemptResult health op (i + (r + 1)))
          have he : i + 1 + r = i + (r + 1) := by omega
          rw [he]

end MammotionWeb

namespace MammotionWeb

/-- C8 counterexample: with every health probe failing, `with_retry`
still performs all 3 probe attempts (so a probe failure is retried, not
surfaced), never calls the wrapped operation, sleeps twice, and finally
raises the generic wrapping error (carrying the reauthentication error
only as its cause) — the claim's "raises a distinct
reauthentication-required error to the caller instead of retrying" is
false. -/
theorem c8_counterexample :
    withRetry 3 (fun _ => false) (fun _ => (.ok 0 : Except PyErr Nat))
      = (.error (.opFailed 3 (some (.runtimeError reauthRequiredMsg))),
         { opCalls := 0, probeCalls := 3, sleeps := 2 }) := by
  rfl

/-- C8 (amended): `with_retry` executes the wrapped call at most `N`
times (default 3) and only on attempts whose health probe passed, with a
fixed delay between attempts (at most `N-1` sleeps); if every attempt
fails it raises a wrapped error that retains the last underlying cause
(which is the reauthentication-required error when the last probe
failed); a failing probe makes that attempt raise the
reauthentication-required error internally — skipping the wrapped call —
but the error is caught and retried rather than surfaced directly. -/
theorem c8_retry_wrapper {A : Type} (N : Nat) (health : Nat → Bool)
    (op : Nat → Except PyErr A) :
    ((withRetry N health op).2.opCalls ≤
      ((List.range' 0 N).filter (fun j => health j)).length) ∧
    ((withRetry N health op).2.opCalls ≤ N) ∧
    ((withRetry N health op).2.probeCalls ≤ N) ∧
    ((withRetry N health op).2.sleeps ≤ N - 1) ∧
    (∀ w, (withRetry N health op).1 = .error w →
      w.attempts = N ∧
      (∀ j, j < N → (errOf (attemptResult health op j)).isSome) ∧
      w.lastCause = (match N with
        | 0 => none
        | r + 1 => errOf (attemptResult health op r))) ∧
    (∀ i, health i = false →
      attemptResult health op i = .error (.runtimeError reauthRequiredMsg)) := by
  have hc := withRetryGo_counts N health op N 0 none {}
  have he := withRetryGo_error N health op N 0 none {}
  refine ⟨?_, ?_, ?_, ?_, ?_, ?_⟩
  · simpa [withRetry] using hc.1
  · calc (withRetry N health op).2.opCalls
        ≤ ((List.range' 0 N).filter (fun j => health j)).length := by
          simpa [withRetry] using hc.1
      _ ≤ (List.range' 0 N).length := List.length_filter_le _ _
      _ = N := List.length_range' ..
  · simpa [withRetry] using hc.2.1
  · simpa [withRetry] using hc.2.2
  · intro w hw
    obtain ⟨ha, hfail, hlast⟩ := he w hw
    refine ⟨ha, ?_, ?_⟩
    · intro j hj
      simpa using hfail j hj
    · cases N with
      | zero => simpa using hlast
      | succ r =>
        rw [hlast]
        show errOf (attemptResult health op (0 + r))
          = errOf (attemptResult health op r)
        rw [Nat.zero_add]
  · intro i hi
    simp [attemptResult, ensureConnection, hi]

/-- C8 witness: the amended theorem applied at `N = 3` with all probes
failing and a constantly succeeding operation. -/
theorem c8_retry_wrapper_witness :
    (WrapErr.opFailed 3 (some (.runtimeError reauthRequiredMsg))).attempts = 3 ∧
    attemptResult (fun _ => false) (fun _ => (.ok 0 : Except PyErr Nat)) 1
      = .error (.runtimeError reauthRequiredMsg) :=
  ⟨((c8_retry_wrapper 3 (fun _ => false)
      (fun _ => (.ok 0 : Except PyErr Nat))).2.2.2.2.1
      (.opFailed 3 (some (.runtimeError reauthRequiredMsg))) rfl).1,
   (c8_retry_wrapper 3 (fun _ => false)
      (fun _ => (.ok 0 : Except PyErr Nat))).2.2.2.2.2 1 rfl⟩

end MammotionWeb

namespace MammotionWeb

/-! ## C6 — manager-creation idempotence -/

theorem repairIdentity_pres (env : Env) (s : Session) (d : String)
    (dev : TypedDevice) :
    (repairIdentity env s d dev).clientPresent = s.clientPresent ∧
    (repairIdentity env s d dev).managers_by_iot = s.managers_by_iot ∧
    (repairIdentity env s d dev).last_known_by_iot = s.last_known_by_iot := by
  unfold repairIdentity
  cases h1 : dev.identityId with
  | none =>
    simp only
    cases h2 : env.listBindingByDev d <;> simp
  | some i =>
    simp only
    by_cases h3 : trimStr i = ""
    · simp only [h3, if_true]
      cases h2 : env.listBindingByDev d <;> simp
    · simp [h3]

/-- A cache hit returns the stored handle and leaves the state alone. -/
theorem gocm_cached_hit (env : Env) (st : SState) (device_id : String) (m : Mgr)
    (hcp : st.session.clientPresent = true)
    (hm : alGet st.session.managers_by_iot device_id = some m) :
    get_or_create_manager env st device_id = some (.ok m, st) := by
  simp [get_or_create_manager, hcp, hm]

/-- A successful manager call leaves the client in place and the handle
cached. -/
theorem gocm_ok_state (env : Env) (st : SState) (device_id : String) (m : Mgr)
    (st1 : SState)
    (h : get_or_create_manager env st device_id = some (.ok m, st1)) :
    st1.session.clientPresent = st.session.clientPresent ∧
    alGet st1.session.managers_by_iot device_id = some m := by
  unfold get_or_create_manager at h
  by_cases hcp : st.session.clientPresent
  · simp only [hcp, not_true_eq_false, if_false, Bool.not_eq_true,
      reduceIte] at h
    cases hmg : alGet st.session.managers_by_iot device_id with
    | some mgr =>
      rw [hmg] at h
      simp at h
      obtain ⟨h1, h2⟩ := h
      subst h1
      subst h2
      exact ⟨rfl, hmg⟩
    | none =>
      rw [hmg] at h
      simp only at h
      cases hdev : alGet st.session.devices_by_iot device_id with
      | none => rw [hdev] at h; simp at h
      | some dev =>
        rw [hdev] at h
        simp only at h
        split at h
        · cases horc : env.orchestratorMgr with
          | some mgr =>
            rw [horc] at h
            simp at h
            obtain ⟨h1, h2⟩ := h
            subst h1
            rw [← h2]
            exact ⟨(repairIdentity_pres env st.session device_id dev).1,
              alGet_alUpdate_self _ _ _⟩
          | none =>
            rw [horc] at h
            simp only at h
            cases hcon : env.constructedMgr with
            | some mgr =>
              rw [hcon] at h
              simp at h
              obtain ⟨h1, h2⟩ := h
              subst h1
              rw [← h2]
              exact ⟨(repairIdentity_pres env st.session device_id dev).1,
                alGet_alUpdate_self _ _ _⟩
            | none => rw [hcon] at h; simp at h
        · cases hcon : env.constructedMgr with
          | some mgr =>
            rw [hcon] at h
            simp at h
            obtain ⟨h1, h2⟩ := h
            subst h1
            rw [← h2]
            exact ⟨(repairIdentity_pres env st.session device_id dev).1,
              alGet_alUpdate_self _ _ _⟩
          | none => rw [hcon] at h; simp at h
  · simp only [Bool.not_eq_true] at hcp
    simp [hcp] at h

/-- C6: `_get_or_create_manager` is idempotent per (session, device):
after a successful call returning handle `m` and state `st1`, a second
call — with no intervening listing refresh and under any environment —
returns the identical cached handle `m` and the identical state `st1`
(in particular the construction counter is unchanged: no manager is
constructed). -/
theorem c6_manager_idempotent (env env2 : Env) (st : SState)
    (device_id : String) (m : Mgr) (st1 : SState)
    (h : get_or_create_manager env st device_id = some (.ok m, st1)) :
    get_or_create_manager env2 st1 device_id = some (.ok m, st1) := by
  obtain ⟨hcp1, hm1⟩ := gocm_ok_state env st device_id m st1 h
  have hcp : st.session.clientPresent = true := by
    by_contra hc
    simp only [Bool.not_eq_true] at hc
    unfold get_or_create_manager at h
    simp [hc] at h
  rw [hcp] at hcp1
  exact gocm_cached_hit env2 st1 device_id m hcp1 hm1

/-- C6 witness: a first call that constructs the manager (construction
counter 1), applied to the theorem: the second call returns the same
handle and the same state. -/
theorem c6_manager_idempotent_witness :
    get_or_create_manager envW st1W "d1" = some (.ok mgrSeven, st1W) :=
  c6_manager_idempotent envW envW { session := sessW } "d1" mgrSeven st1W rfl

end MammotionWeb

namespace MammotionWeb

/-! ## C5 — listing shapes -/

/-- C5 counterexample: a response that is a bare top-level list (its
`to_dict` view is a list, there are no typed `data.data` attributes) is
rejected with `ServiceError` even though it contains a device — the
dict-branch guard `isinstance(data_dict, dict)` raises before the dead
`isinstance(data_dict, list)` fallback at line 297 can run. -/
theorem c5_counterexample :
    (list_devices { listingResult := .ok flatListResp } ({} : Session)).1
      = .error (.serviceError "Unerwartete Antwortstruktur der Geräteliste") := by
  rfl

/-- One raw dict item normalizes exactly like its typed counterpart. -/
theorem dictItemSummary_ldItem (l : LogicalDevice) (hid : l.id ≠ "") :
    dictItemSummary (ldItem l) = some (typedSummary (ldTyped l)) := by
  unfold dictItemSummary ldItem typedSummary ldTyped
  by_cases hname : l.name = "" <;> by_cases hmodel : l.model = "" <;>
    simp [dictGetV, pyOrV, PyVal.truthy, strOr, strOfOpt, PyVal.pyStr,
      subGet, PyVal.isNone, PyVal.isNum, isBaseFlag, hid, hname, hmodel,
      List.find?]

theorem filterMap_ldItem (ls : List LogicalDevice)
    (h : ∀ l ∈ ls, l.id ≠ "") :
    ls.filterMap (fun l => dictItemSummary (ldItem l))
      = ls.map (fun l => typedSummary (ldTyped l)) := by
  induction ls with
  | nil => simp
  | cons a as ih =>
    rw [List.filterMap_cons, List.map_cons,
      dictItemSummary_ldItem a (h a (by simp)),
      ih (fun l hl => h l (by simp [hl]))]

/-- C5 (amended): for a non-empty set of logical devices presented in
any of the three shapes the code supports — typed list, dict with a
`data|devices|list|result` key holding a flat device list, or the same
key holding a nested dict with a `data` list — `list_devices` succeeds
with the identical normalized summary list, and the session's device
index is replaced wholesale by a function of the response alone (the
typed index for the typed shape, empty for the dict shapes).  A bare
top-level list response is not a supported shape: it raises
`ServiceError` (see the counterexample). -/
theorem c5_listing_shapes (lds : List LogicalDevice) (s : Session)
    (hc : s.clientPresent = true) (hne : lds ≠ [])
    (hid : ∀ l ∈ lds, l.id ≠ "") :
    (list_devices (envOfResp (shapeTyped lds)) s).1
      = .ok (lds.map (fun l => typedSummary (ldTyped l))) ∧
    (list_devices (envOfResp (shapeKeyList lds)) s).1
      = .ok (lds.map (fun l => typedSummary (ldTyped l))) ∧
    (list_devices (envOfResp (shapeKeyNested lds)) s).1
      = .ok (lds.map (fun l => typedSummary (ldTyped l))) ∧
    (list_devices (envOfResp (shapeTyped lds)) s).2.devices_by_iot
      = typedIndex (lds.map ldTyped) ∧
    (list_devices (envOfResp (shapeKeyList lds)) s).2.devices_by_iot = [] ∧
    (list_devices (envOfResp (shapeKeyNested lds)) s).2.devices_by_iot = [] := by
  have hmapne : (lds.map ldTyped).isEmpty = false := by
    cases lds with
    | nil => exact absurd rfl hne
    | cons a as => simp
  refine ⟨?_, ?_, ?_, ?_, ?_, ?_⟩
  · simp [list_devices, listingSummaries, typedOf, envOfResp, shapeTyped,
      hc, hmapne]
  · simp [list_devices, listingSummaries, typedOf, envOfResp, shapeKeyList,
      hc, findDevicesRaw, alGet, List.find?, typedIndex]
    exact filterMap_ldItem lds hid
  · simp [list_devices, listingSummaries, typedOf, envOfResp, shapeKeyNested,
      hc, findDevicesRaw, alGet, List.find?, typedIndex]
    exact filterMap_ldItem lds hid
  · simp [list_devices, typedOf, envOfResp, shapeTyped, hc, hmapne]
  · simp [list_devices, typedOf, envOfResp, shapeKeyList, hc, typedIndex]
  · simp [list_devices, typedOf, envOfResp, shapeKeyNested, hc, typedIndex]

/-- C5 witness: the three shapes at one concrete device. -/
theorem c5_listing_shapes_witness :
    (list_devices (envOfResp (shapeTyped [⟨"dev1", "Luba 2", "Luba2AWD"⟩]))
        ({} : Session)).1
      = .ok ([(⟨"dev1", "Luba 2", "Luba2AWD"⟩ : LogicalDevice)].map
          (fun l => typedSummary (ldTyped l))) ∧
    (list_devices (envOfResp (shapeKeyList [⟨"dev1", "Luba 2", "Luba2AWD"⟩]))
        ({} : Session)).1
      = .ok ([(⟨"dev1", "Luba 2", "Luba2AWD"⟩ : LogicalDevice)].map
          (fun l => typedSummary (ldTyped l))) :=
  ⟨(c5_listing_shapes [⟨"dev1", "Luba 2", "Luba2AWD"⟩] {} rfl (by decide)
      (by decide)).1,
   (c5_listing_shapes [⟨"dev1", "Luba 2", "Luba2AWD"⟩] {} rfl (by decide)
      (by decide)).2.1⟩

end MammotionWeb

namespace MammotionWeb

/-! ## C9 — dock-position substitution -/

theorem resolveLive_dockOnly (la lo : Rat) (hz : la ≠ 0 ∨ lo ≠ 0) :
    resolveLive (dockOnlyMgr la lo)
      = { pos := some (la, lo), dock_pos := some (la, lo) } := by
  unfold resolveLive dockOnlyMgr blockLocation extractPoint pointCoord
    readOnline blockMower
  simp [PyVal.isNum, PyVal.toRat, hz]

theorem cleanPos_of_valid (la lo : Rat) (h1 : -90 ≤ la) (h2 : la ≤ 90)
    (h3 : -180 ≤ lo) (h4 : lo ≤ 180)
    (h5 : ¬(|la| < 1 / 10000 ∧ |lo| < 1 / 10000)) :
    cleanPos (some (la, lo)) = some (la, lo) := by
  unfold cleanPos
  have hA : ¬¬(-90 ≤ la ∧ la ≤ 90 ∧ -180 ≤ lo ∧ lo ≤ 180) :=
    fun hx => hx ⟨h1, h2, h3, h4⟩
  show (if ¬(-90 ≤ la ∧ la ≤ 90 ∧ -180 ≤ lo ∧ lo ≤ 180) then none
        else if |la| < 1 / 10000 ∧ |lo| < 1 / 10000 then none
        else some (la, lo)) = some (la, lo)
  rw [if_neg hA, if_neg h5]

/-- C9: when the unified state yields no valid device point but a valid
dock point (and nothing else resolves), `get_device_status` reports the
dock coordinates as the device's position with `position_source =
"live"`, and writes them into the last-known position cache — a caller
cannot distinguish a robot at its dock from one parked anywhere. -/
theorem c9_dock_substitution (la lo : Rat) (env : Env) (s : Session) (c : Nat)
    (h1 : -90 ≤ la) (h2 : la ≤ 90) (h3 : -180 ≤ lo) (h4 : lo ≤ 180)
    (h5 : ¬(|la| < 1 / 10000 ∧ |lo| < 1 / 10000))
    (hc : s.clientPresent = true)
    (hm : alGet s.managers_by_iot "d1" = some (dockOnlyMgr la lo)) :
    get_device_status env ⟨s, c⟩ "d1"
      = some (.ok
          { id := "d1"
            battery := none
            status := none
            position := some (.pnum la, .pnum lo)
            position_source := some "live"
            position_updated_at := some env.nowTs
            dock_position := some (la, lo)
            rtk_position := none
            online := none
            updated_at := env.nowTs },
          { session :=
              { s with
                last_known_by_iot := applyCacheUpdate s.last_known_by_iot
                  "d1" none none (some (la, lo)) env.nowTs }
            constructions := c }) ∧
    (alGet (applyCacheUpdate s.last_known_by_iot "d1" none none
        (some (la, lo)) env.nowTs) "d1").map (·.position)
      = some (some (la, lo)) := by
  have hz : la ≠ 0 ∨ lo ≠ 0 := by
    by_contra hcon
    push_neg at hcon
    obtain ⟨e1, e2⟩ := hcon
    exact h5 (by simp [e1, e2])
  have hclean := cleanPos_of_valid la lo h1 h2 h3 h4 h5
  constructor
  · unfold get_device_status liveAttempt
    rw [gocm_cached_hit env ⟨s, c⟩ "d1" (dockOnlyMgr la lo) hc hm]
    simp only [resolveLive_dockOnly la lo hz, hclean]
    unfold assembleLive
    simp only [hclean]
    simp [cleanPos, ratPosVal]
  · unfold applyCacheUpdate
    simp [alGet_alUpdate_self, mergedEntry]

end MammotionWeb

namespace MammotionWeb

/-- C9 witness: the theorem at dock point (47.1, 8.2): the dock
coordinates end up in the last-known position cache. -/
theorem c9_dock_substitution_witness :
    (alGet (applyCacheUpdate sessDock.last_known_by_iot "d1" none none
        (some (471 / 10, 41 / 5)) 0) "d1").map (·.position)
      = some (some (471 / 10, 41 / 5)) :=
  (c9_dock_substitution (471 / 10) (41 / 5) {} sessDock 0 (by norm_num)
    (by norm_num) (by norm_num) (by norm_num)
    (by
      rw [abs_of_nonneg (by norm_num : (0 : Rat) ≤ 471 / 10),
        abs_of_nonneg (by norm_num : (0 : Rat) ≤ 41 / 5)]
      norm_num) rfl rfl).2

end MammotionWeb

namespace MammotionWeb

/-! ## C10 — last-known-cache monotonicity -/

/-- `list_devices` touches only the device index: client flag, manager
cache and last-known cache are untouched. -/
theorem list_devices_pres (env : Env) (s : Session) :
    (list_devices env s).2.last_known_by_iot = s.last_known_by_iot ∧
    (list_devices env s).2.managers_by_iot = s.managers_by_iot ∧
    (list_devices env s).2.clientPresent = s.clientPresent := by
  unfold list_devices
  by_cases hc : s.clientPresent
  · cases hlr : env.listingResult <;> cases hml : env.mammotionListing <;>
      by_cases hm : s.mammotionPresent <;> simp [hc, hlr, hml, hm]
  · simp only [Bool.not_eq_true] at hc
    simp [hc]

/-- `_get_or_create_manager` never touches the last-known cache. -/
theorem gocm_last_known (env : Env) (st : SState) (device_id : String)
    (r : Except SErr Mgr) (st1 : SState)
    (h : get_or_create_manager env st device_id = some (r, st1)) :
    st1.session.last_known_by_iot = st.session.last_known_by_iot := by
  unfold get_or_create_manager at h
  by_cases hcp : st.session.clientPresent
  · simp only [hcp, not_true_eq_false, if_false, Bool.not_eq_true,
      reduceIte] at h
    cases hmg : alGet st.session.managers_by_iot device_id with
    | some mgr =>
      rw [hmg] at h
      simp at h
      rw [← h.2]
    | none =>
      rw [hmg] at h
      simp only at h
      cases hdev : alGet st.session.devices_by_iot device_id with
      | none => rw [hdev] at h; simp at h
      | some dev =>
        rw [hdev] at h
        simp only at h
        have hpres := (repairIdentity_pres env st.session device_id dev).2.2
        split at h
        · cases horc : env.orchestratorMgr with
          | some mgr =>
            rw [horc] at h
            simp at h
            rw [← h.2]
            exact hpres
          | none =>
            rw [horc] at h
            simp only at h
            cases hcon : env.constructedMgr with
            | some mgr =>
              rw [hcon] at h
              simp at h
              rw [← h.2]
              exact hpres
            | none =>
              rw [hcon] at h
              simp at h
              rw [← h.2]
              exact hpres
        · cases hcon : env.constructedMgr with
          | some mgr =>
            rw [hcon] at h
            simp at h
            rw [← h.2]
            exact hpres
          | none =>
            rw [hcon] at h
            simp at h
            rw [← h.2]
            exact hpres
  · simp only [Bool.not_eq_true] at hcp
    simp [hcp] at h
    rw [← h.2]

/-- An update that resolved nothing leaves the store untouched. -/
theorem applyCacheUpdate_noop (store : List (String × LastTelemetry))
    (device_id : String) (now : Nat) :
    applyCacheUpdate store device_id none none none now = store := by
  simp [applyCacheUpdate]

/-- An update that resolved something re-timestamps the entry. -/
theorem applyCacheUpdate_stamped (store : List (String × LastTelemetry))
    (device_id : String) (b w : Option Int) (p : Option (Rat × Rat))
    (now : Nat) (h : b.isSome ∨ w.isSome ∨ p.isSome) :
    ∃ e', alGet (applyCacheUpdate store device_id b w p now) device_id
        = some e' ∧ e'.updated_at = now := by
  have hcond : (b.isSome || w.isSome || p.isSome) = true := by
    rcases h with h | h | h <;> simp [h]
  unfold applyCacheUpdate
  rw [if_pos hcond]
  exact ⟨_, alGet_alUpdate_self _ _ _, rfl⟩

/-- Fields of a cached entry are only overwritten with fresh values,
never cleared; the timestamp moves only when something resolved. -/
theorem applyCacheUpdate_monotone (store : List (String × LastTelemetry))
    (device_id : String) (b w : Option Int) (p : Option (Rat × Rat))
    (now : Nat) (e : LastTelemetry)
    (he : alGet store device_id = some e) :
    ∃ e', alGet (applyCacheUpdate store device_id b w p now) device_id
        = some e' ∧
      (e.battery.isSome → e'.battery.isSome) ∧
      (e.work_mode.isSome → e'.work_mode.isSome) ∧
      (e.position.isSome → e'.position.isSome) ∧
      (e' = e ∨ e'.updated_at = now) := by
  by_cases hcond : (b.isSome || w.isSome || p.isSome) = true
  · refine ⟨mergedEntry e b w p now, ?_, ?_, ?_, ?_, Or.inr rfl⟩
    · unfold applyCacheUpdate
      rw [he, if_pos hcond]
      exact alGet_alUpdate_self _ _ _
    · cases b <;> simp [mergedEntry]
    · cases w <;> simp [mergedEntry]
    · cases p <;> simp [mergedEntry]
  · have hall : b = none ∧ w = none ∧ p = none := by
      rcases b <;> rcases w <;> rcases p <;> simp_all
    obtain ⟨hb, hw2, hp⟩ := hall
    subst hb
    subst hw2
    subst hp
    refine ⟨e, ?_, fun h => h, fun h => h, fun h => h, Or.inl rfl⟩
    rw [applyCacheUpdate_noop]
    exact he

/-- The live attempt either leaves the last-known store untouched or
replaces it by exactly one `applyCacheUpdate` of some manager's
resolution. -/
theorem liveAttempt_last_known (env : Env) (st : SState) (device_id : String)
    (topt : Option Telemetry) (st1 : SState)
    (h : liveAttempt env st device_id = some (topt, st1)) :
    st1.session.last_known_by_iot = st.session.last_known_by_iot ∨
    ∃ mgr, st1.session.last_known_by_iot =
      applyCacheUpdate st.session.last_known_by_iot device_id
        (resolveLive mgr).battery (resolveLive mgr).work_mode_val
        (cleanPos (resolveLive mgr).pos) env.nowTs := by
  unfold liveAttempt at h
  cases hg : get_or_create_manager env st device_id with
  | none => rw [hg] at h; simp at h
  | some pr =>
    obtain ⟨r, st2⟩ := pr
    have hpres := gocm_last_known env st device_id r st2 hg
    rw [hg] at h
    cases r with
    | error e =>
      simp at h
      rw [← h.2]
      exact Or.inl hpres
    | ok mgr =>
      simp at h
      rw [← h.2]
      right
      exact ⟨mgr, by rw [hpres]⟩

end MammotionWeb

namespace MammotionWeb

/-- C10: across any `get_device_status` call, an existing last-known
entry's battery, work-mode and position fields are only ever overwritten
with freshly resolved values and never cleared (set stays set), and the
entry either survives unchanged or is re-timestamped to the call's
clock; the cache writer itself leaves the store untouched when nothing
resolved and re-timestamps exactly when something did. -/
theorem c10_cache_monotonicity :
    (∀ (env : Env) (st : SState) (device_id : String) (e : LastTelemetry)
       (res : Except SErr Telemetry) (st' : SState),
      alGet st.session.last_known_by_iot device_id = some e →
      get_device_status env st device_id = some (res, st') →
      ∃ e', alGet st'.session.last_known_by_iot device_id = some e' ∧
        (e.battery.isSome → e'.battery.isSome) ∧
        (e.work_mode.isSome → e'.work_mode.isSome) ∧
        (e.position.isSome → e'.position.isSome) ∧
        (e' = e ∨ e'.updated_at = env.nowTs)) ∧
    (∀ (store : List (String × LastTelemetry)) (device_id : String) (now : Nat),
      applyCacheUpdate store device_id none none none now = store) ∧
    (∀ (store : List (String × LastTelemetry)) (device_id : String)
       (b w : Option Int) (p : Option (Rat × Rat)) (now : Nat),
      b.isSome ∨ w.isSome ∨ p.isSome →
      ∃ e', alGet (applyCacheUpdate store device_id b w p now) device_id
          = some e' ∧ e'.updated_at = now) := by
  refine ⟨?_, applyCacheUpdate_noop, applyCacheUpdate_stamped⟩
  intro env st device_id e res st' he hr
  unfold get_device_status at hr
  cases hla : liveAttempt env st device_id with
  | none => rw [hla] at hr; simp at hr
  | some pr =>
    obtain ⟨topt, st1⟩ := pr
    rw [hla] at hr
    have hlast := liveAttempt_last_known env st device_id topt st1 hla
    have hstep : ∃ e1, alGet st1.session.last_known_by_iot device_id = some e1 ∧
        (e.battery.isSome → e1.battery.isSome) ∧
        (e.work_mode.isSome → e1.work_mode.isSome) ∧
        (e.position.isSome → e1.position.isSome) ∧
        (e1 = e ∨ e1.updated_at = env.nowTs) := by
      rcases hlast with hsame | ⟨mgr, hupd⟩
      · exact ⟨e, by rw [hsame]; exact he, fun h => h, fun h => h,
          fun h => h, Or.inl rfl⟩
      · rw [hupd]
        exact applyCacheUpdate_monotone _ _ _ _ _ _ e he
    obtain ⟨e1, he1, m1, m2, m3, m4⟩ := hstep
    cases topt with
    | some t =>
      simp at hr
      rw [← hr.2]
      exact ⟨e1, he1, m1, m2, m3, m4⟩
    | none =>
      simp only at hr
      have hldp := (list_devices_pres env st1.session).1
      cases hld : list_devices env st1.session with
      | mk r2 s2 =>
        rw [hld] at hr hldp
        have hs2 : alGet s2.last_known_by_iot device_id = some e1 := by
          rw [hldp]
          exact he1
        cases r2 with
        | error err =>
          simp at hr
          rw [← hr.2]
          exact ⟨e1, hs2, m1, m2, m3, m4⟩
        | ok devs =>
          simp only at hr
          cases hf : devs.find? (fun d => d.id = device_id) with
          | some d =>
            rw [hf] at hr
            simp at hr
            rw [← hr.2]
            exact ⟨e1, hs2, m1, m2, m3, m4⟩
          | none =>
            rw [hf] at hr
            simp at hr
            rw [← hr.2]
            exact ⟨e1, hs2, m1, m2, m3, m4⟩

end MammotionWeb

namespace MammotionWeb

/-! ## C2 — degradation law -/

/-- C2 counterexample: device `d1` is known (manager cached, device in
the listing), no live field resolves, and the last-known cache holds a
battery (77) — a cached field exists — yet the returned telemetry is the
listing snapshot: `battery = None`, no `position_source = "cached"`.
Only a cached *position* is ever served from the cache, so the claim's
"built from the last-known cache when cached fields exist" is false. -/
theorem c2_counterexample :
    (get_device_status envListD1 ⟨sessC2, 0⟩ "d1").map
        (fun pr => pr.1.map (fun t => (t.battery, t.position_source, t.status)))
      = some (.ok (none, none, some "unknown")) := by
  rfl

/-- C2 (amended): for a session that holds a manager for the device,
when no live telemetry field resolves, `get_device_status` returns the
cached *position* (`position_source = "cached"`, battery and status
empty — cached battery/work-mode are not served) whenever the last-known
entry has one, leaving the state untouched; otherwise it falls back to a
fresh listing: a failing listing call propagates its error, a listing
containing the device yields its snapshot, and a listing without it
raises `NotFoundError`. -/
theorem c2_degradation (env : Env) (st : SState) (device_id : String)
    (mgr : Mgr)
    (hc : st.session.clientPresent = true)
    (hm : alGet st.session.managers_by_iot device_id = some mgr)
    (hnl : NoLiveResolved (resolveLive mgr)) :
    (∀ lk p, alGet st.session.last_known_by_iot device_id = some lk →
      lk.position = some p →
      get_device_status env st device_id = some (.ok
        { id := device_id
          battery := none
          status := none
          position := some (ratPosVal p)
          position_source := some "cached"
          position_updated_at := some lk.updated_at
          dock_position := cleanPos (resolveLive mgr).dock_pos
          rtk_position := cleanPos (resolveLive mgr).rtk_pos
          online := none
          updated_at := env.nowTs }, st)) ∧
    ((alGet st.session.last_known_by_iot device_id).bind
        (fun lk => lk.position) = none →
      get_device_status env st device_id =
        (match list_devices env st.session with
         | (.error e2, s2) => some (.error e2,
             { session := s2, constructions := st.constructions })
         | (.ok devs, s2) =>
           match devs.find? (fun d => d.id = device_id) with
           | some d => some (.ok (snapshotTelemetry d device_id env.nowTs),
               { session := s2, constructions := st.constructions })
           | none => some (.error (.notFoundError "Device not found"),
               { session := s2, constructions := st.constructions }))) := by
  obtain ⟨hb, hst, hwm, hpc, hon⟩ := hnl
  constructor
  · intro lk p hlk hp
    unfold get_device_status liveAttempt
    rw [gocm_cached_hit env st device_id mgr hc hm]
    simp only [hb, hst, hwm, hpc, hon, applyCacheUpdate_noop]
    unfold assembleLive
    simp only [hb, hst, hwm, hpc, hon, applyCacheUpdate_noop, hlk, hp]
    simp
  · intro hnone
    unfold get_device_status liveAttempt
    rw [gocm_cached_hit env st device_id mgr hc hm]
    simp only [hb, hst, hwm, hpc, hon, applyCacheUpdate_noop]
    unfold assembleLive
    simp only [hb, hst, hwm, hpc, hon, applyCacheUpdate_noop]
    cases halk : alGet st.session.last_known_by_iot device_id with
    | some lk =>
      have hlp : lk.position = none := by
        rw [halk] at hnone
        simpa using hnone
      simp only [halk, hlp]
      simp
    | none =>
      simp only [halk]
      simp

/-- C2 witness: the amended theorem's fallback branch at the concrete
session with a cached battery but no cached position. -/
theorem c2_degradation_witness :
    get_device_status envListD1 ⟨sessC2, 0⟩ "d1" =
      (match list_devices envListD1 (⟨sessC2, 0⟩ : SState).session with
       | (.error e2, s2) => some (.error e2, { session := s2, constructions := 0 })
       | (.ok devs, s2) =>
         match devs.find? (fun d => d.id = "d1") with
         | some d => some (.ok (snapshotTelemetry d "d1" envListD1.nowTs),
             { session := s2, constructions := 0 })
         | none => some (.error (.notFoundError "Device not found"),
             { session := s2, constructions := 0 })) :=
  (c2_degradation envListD1 ⟨sessC2, 0⟩ "d1" mgrEmpty rfl rfl
    ⟨rfl, rfl, rfl, rfl, rfl⟩).2 rfl

end MammotionWeb

namespace MammotionWeb

/-! ## C4 — coordinate validation -/

/-- Anything `_clean` lets through satisfies the validity predicate. -/
theorem cleanPos_valid (po : Option (Rat × Rat)) (la lo : Rat)
    (h : cleanPos po = some (la, lo)) : validCoord la lo = true := by
  cases po with
  | none => simp [cleanPos] at h
  | some q =>
    obtain ⟨a, b⟩ := q
    unfold cleanPos at h
    replace h : (if ¬(-90 ≤ a ∧ a ≤ 90 ∧ -180 ≤ b ∧ b ≤ 180) then none
        else if |a| < 1 / 10000 ∧ |b| < 1 / 10000 then none
        else some (a, b)) = some (la, lo) := h
    by_cases h1 : ¬(-90 ≤ a ∧ a ≤ 90 ∧ -180 ≤ b ∧ b ≤ 180)
    · rw [if_pos h1] at h
      simp at h
    · rw [if_neg h1] at h
      by_cases h2 : |a| < 1 / 10000 ∧ |b| < 1 / 10000
      · rw [if_pos h2] at h
        simp at h
      · rw [if_neg h2] at h
        simp at h
        push_neg at h1
        obtain ⟨ha, hla⟩ := h
        subst ha
        subst hla
        simp [validCoord, h1.1, h1.2.1, h1.2.2.1, h1.2.2.2]
        rcases not_and_or.mp h2 with hA | hB
        · left
          rw [← one_div]
          exact not_lt.mp hA
        · right
          rw [← one_div]
          exact not_lt.mp hB

/-- The cache writer preserves store validity when the written position
(if any) is validated. -/
theorem validStore_applyCacheUpdate (store : List (String × LastTelemetry))
    (device_id : String) (b w : Option Int) (p : Option (Rat × Rat)) (now : Nat)
    (hv : validStore store = true)
    (hp : ∀ la lo, p = some (la, lo) → validCoord la lo = true) :
    validStore (applyCacheUpdate store device_id b w p now) = true := by
  unfold applyCacheUpdate
  by_cases hcond : (b.isSome || w.isSome || p.isSome) = true
  · rw [if_pos hcond]
    rw [validStore, List.all_eq_true] at hv ⊢
    intro x hx
    rcases mem_alUpdate _ _ _ x hx with hmem | hnew
    · exact hv x hmem
    · subst hnew
      simp only [mergedEntry]
      cases hpp : p with
      | some q =>
        obtain ⟨la, lo⟩ := q
        simpa using hp la lo hpp
      | none =>
        simp only
        cases hag : alGet store device_id with
        | some e =>
          have := hv (device_id, e) (alGet_mem _ _ _ hag)
          simpa [hag] using this
        | none => simp [hag]
  · rw [if_neg hcond]
    exact hv

/-- Every position the live assembly labels with a source is validated,
provided the store it reads is. -/
theorem assembleLive_pos (device_id : String) (r : Resolved)
    (store : List (String × LastTelemetry)) (now : Nat) (t : Telemetry)
    (hvs : validStore store = true)
    (h : assembleLive device_id r store now = some t) :
    t.position_source.isSome = true →
    ∃ p, t.position = some p ∧ validPosPair p = true := by
  unfold assembleLive at h
  cases hcp : cleanPos r.pos with
  | some q =>
    rw [hcp] at h
    simp at h
    rw [← h]
    intro _
    refine ⟨ratPosVal q, rfl, ?_⟩
    obtain ⟨la, lo⟩ := q
    simpa [ratPosVal, validPosPair] using cleanPos_valid r.pos la lo hcp
  | none =>
    rw [hcp] at h
    cases halk : alGet store device_id with
    | some l =>
      rw [halk] at h
      simp only at h
      cases hlp : l.position with
      | some q =>
        rw [hlp] at h
        simp at h
        rw [← h]
        intro _
        refine ⟨ratPosVal q, rfl, ?_⟩
        obtain ⟨la, lo⟩ := q
        rw [validStore, List.all_eq_true] at hvs
        have := hvs (device_id, l) (alGet_mem _ _ _ halk)
        simp [hlp] at this
        simpa [ratPosVal, validPosPair] using this
      | none =>
        rw [hlp] at h
        split at h
        · simp at h
          rw [← h]
          intro hsrc
          simp at hsrc
        · simp at h
    | none =>
      rw [halk] at h
      simp only at h
      split at h
      · simp at h
        rw [← h]
        intro hsrc
        simp at hsrc
      · simp at h

/-- The live attempt, fully characterized: either the manager step
failed (state untouched, no telemetry), or some manager resolved and the
state and the telemetry are the cache update and live assembly of its
resolution. -/
theorem liveAttempt_spec (env : Env) (st : SState) (device_id : String)
    (topt : Option Telemetry) (st1 : SState)
    (h : liveAttempt env st device_id = some (topt, st1)) :
    (st1.session.last_known_by_iot = st.session.last_known_by_iot ∧
     topt = none) ∨
    ∃ mgr, st1.session.last_known_by_iot =
        applyCacheUpdate st.session.last_known_by_iot device_id
          (resolveLive mgr).battery (resolveLive mgr).work_mode_val
          (cleanPos (resolveLive mgr).pos) env.nowTs ∧
      topt = assembleLive device_id (resolveLive mgr)
        st1.session.last_known_by_iot env.nowTs := by
  unfold liveAttempt at h
  cases hg : get_or_create_manager env st device_id with
  | none => rw [hg] at h; simp at h
  | some pr =>
    obtain ⟨r, st2⟩ := pr
    have hpres := gocm_last_known env st device_id r st2 hg
    rw [hg] at h
    cases r with
    | error e =>
      simp at h
      rw [← h.1, ← h.2]
      exact Or.inl ⟨hpres, rfl⟩
    | ok mgr =>
      simp at h
      rw [← h.1, ← h.2]
      right
      refine ⟨mgr, by rw [hpres], ?_⟩
      rw [hpres]

/-- C4 (amended): starting from a validated last-known store, every
telemetry `get_device_status` returns with a `position_source` label
(live or cached) carries a validated position, and the store stays
validated; the listing-snapshot fallback, which carries no
`position_source`, passes the listing's position through unvalidated
(see the counterexample). -/
theorem c4_position_validation (env : Env) (st : SState) (device_id : String)
    (hv : validStore st.session.last_known_by_iot = true)
    (res : Except SErr Telemetry) (st' : SState)
    (hr : get_device_status env st device_id = some (res, st')) :
    validStore st'.session.last_known_by_iot = true ∧
    (∀ t, res = .ok t → t.position_source.isSome = true →
      ∃ p, t.position = some p ∧ validPosPair p = true) := by
  unfold get_device_status at hr
  cases hla : liveAttempt env st device_id with
  | none => rw [hla] at hr; simp at hr
  | some pr =>
    obtain ⟨topt, st1⟩ := pr
    rw [hla] at hr
    have hspec := liveAttempt_spec env st device_id topt st1 hla
    have hv1 : validStore st1.session.last_known_by_iot = true := by
      rcases hspec with ⟨hsame, _⟩ | ⟨mgr, hupd, _⟩
      · rw [hsame]; exact hv
      · rw [hupd]
        exact validStore_applyCacheUpdate _ _ _ _ _ _ hv
          (fun la lo hp => cleanPos_valid _ la lo hp)
    cases topt with
    | some t =>
      simp at hr
      obtain ⟨hres, hst⟩ := hr
      rcases hspec with ⟨_, hnone⟩ | ⟨mgr, hupd, hass⟩
      · simp at hnone
      · rw [← hst]
        refine ⟨hv1, ?_⟩
        intro t' ht' hsrc
        rw [← hres] at ht'
        rw [Except.ok.injEq] at ht'
        subst ht'
        exact assembleLive_pos device_id (resolveLive mgr)
          st1.session.last_known_by_iot env.nowTs t hv1 hass.symm hsrc
    | none =>
      simp only at hr
      have hldp := (list_devices_pres env st1.session).1
      cases hld : list_devices env st1.session with
      | mk r2 s2 =>
        rw [hld] at hr hldp
        have hv2 : validStore s2.last_known_by_iot = true := by
          rw [hldp]; exact hv1
        cases r2 with
        | error err =>
          simp at hr
          rw [← hr.1, ← hr.2]
          exact ⟨hv2, fun t ht => by simp at ht⟩
        | ok devs =>
          simp only at hr
          cases hf : devs.find? (fun d => d.id = device_id) with
          | some d =>
            rw [hf] at hr
            simp at hr
            rw [← hr.1, ← hr.2]
            refine ⟨hv2, ?_⟩
            intro t ht hsrc
            rw [Except.ok.injEq] at ht
            rw [← ht] at hsrc
            simp [snapshotTelemetry] at hsrc
          | none =>
            rw [hf] at hr
            simp at hr
            rw [← hr.1, ← hr.2]
            exact ⟨hv2, fun t ht => by simp at ht⟩

end MammotionWeb

namespace MammotionWeb

/-- C4 counterexample: with no live data and no cache, the listing
fallback returns the listing's raw position `(999, 50)` — latitude 999
is outside WGS84 range, so the claim's "position treated as absent on
every return path" fails on the listing-snapshot path (which carries no
`position_source`). -/
theorem c4_counterexample :
    (get_device_status envC4 ⟨sessC4, 0⟩ "d1").map
        (fun pr => pr.1.map (fun t => (t.position, t.position_source)))
      = some (.ok (some (.pint 999, .pint 50), none)) ∧
    validPosPair (.pint 999, .pint 50) = false ∧
    ((90 : Rat) < 999) := by
  refine ⟨rfl, rfl, by decide⟩

/-- C4 witness: the amended theorem applied to the concrete fallback
run; the (empty) validated store stays validated. -/
theorem c4_position_validation_witness :
    validStore ((⟨sessC4, 0⟩ : SState)).session.last_known_by_iot = true :=
  (c4_position_validation envC4 ⟨sessC4, 0⟩ "d1" rfl _ _ rfl).1

end MammotionWeb

namespace MammotionWeb

/-- C10 witness: the monotonicity theorem at the concrete cached-battery
session (nothing resolves, so the entry survives), and the stamping
clause at a battery-only update. -/
theorem c10_cache_monotonicity_witness :
    (∃ e', alGet sessC2.last_known_by_iot "d1" = some e' ∧
      (({ battery := some 77, updated_at := 5 } : LastTelemetry).battery.isSome →
        e'.battery.isSome) ∧
      (({ battery := some 77, updated_at := 5 } : LastTelemetry).work_mode.isSome →
        e'.work_mode.isSome) ∧
      (({ battery := some 77, updated_at := 5 } : LastTelemetry).position.isSome →
        e'.position.isSome) ∧
      (e' = { battery := some 77, updated_at := 5 } ∨
       e'.updated_at = envListD1.nowTs)) ∧
    (∃ e', alGet (applyCacheUpdate [] "d1" (some 5) none none 9) "d1"
        = some e' ∧ e'.updated_at = 9) :=
  ⟨c10_cache_monotonicity.1 envListD1 ⟨sessC2, 0⟩ "d1"
      { battery := some 77, updated_at := 5 } _ _ rfl rfl,
   c10_cache_monotonicity.2.2 [] "d1" (some 5) none none 9 (Or.inl rfl)⟩

end MammotionWeb
